import Mathlib

/-!
# Netlink dispatch service of the qcacld-2.0 WLAN driver (wlan_nlink_srv.c)

A shallow embedding of `drivers/staging/qcacld-2.0/CORE/SVC/src/nlink/wlan_nlink_srv.c`:
the handler registry (`nl_srv_register`, `nl_srv_unregister`), the receive
dispatcher (`nl_srv_rcv_skb`, `nl_srv_rcv_msg`), the two delivery gateways
(`nl_srv_ucast`, `nl_srv_bcast`, with and without `CNSS_GENL`) and the lifecycle
(`nl_srv_init`, `nl_srv_exit`, `nl_srv_is_initialized`).

Conventions.
* Machine integers are `Nat`/`Int`; unsigned 32-bit arithmetic that can wrap
  carries an explicit `% 2 ^ 32`.
* A socket buffer is the byte string it was built on (`head`), the cursor
  `data` (an offset into `head`) and the byte count `len`.  The netlink
  header is read at the cursor in little-endian byte order.
* A handler is a function pointer, modelled as a number; `NULL` is `0`.
  What a handler does to the buffer and to the module's globals is given by
  a parameter of type `callback_sem`; each invocation is recorded, with the
  buffer as it was passed, in the ghost field `invoked`.
* An access to `nl_srv_msg_handler` outside the array is a fault of its own
  (`none`, or `Outcome.out_of_bounds`); the dispatch loop runs on fuel, one
  unit per iteration.
* Calls of `VOS_TRACE` only log and are left out.
-/

namespace WlanNlink

/-! ## Constants -/

/-- Constants of the driver's headers (wlan_nlink_common.h, wlan_nlink_srv.h) that the
source file uses without defining them; they are parameters of the embedding. -/
structure Config where
  WLAN_NL_MSG_BASE : Int
  WLAN_NL_MSG_MAX : Int
  NLINK_MAX_CALLBACKS : Nat
  sizeof_tAniMsgHdr : Nat
  WLAN_NLINK_MCAST_GRP_ID : Nat
deriving DecidableEq, Repr

/-- Sample values of the constants, those of the qcacld-2.0 headers: message types from `0x10`
up to, not including, `0x1d`; one table slot per type; a four-byte `tAniMsgHdr` (two 16-bit
fields); multicast group 1. -/
def wlan_cfg : Config :=
  { WLAN_NL_MSG_BASE := 16, WLAN_NL_MSG_MAX := 29, NLINK_MAX_CALLBACKS := 13,
    sizeof_tAniMsgHdr := 4, WLAN_NLINK_MCAST_GRP_ID := 1 }

def EPERM : Int := 1
def EINVAL : Int := 22
def ECONNREFUSED : Int := 111

/-- Modelled from the spec: the "request" bit of the frame flags; linux/netlink.h, which is
not among the sources, defines `NLM_F_REQUEST` as bit 0. -/
def NLM_F_REQUEST : Nat := 1

/-- Modelled from the spec: the platform's frame-alignment quantum (`NLMSG_ALIGNTO`, 4 bytes). -/
def NLMSG_ALIGNTO : Nat := 4

/-- Modelled from the spec: the frame header size, `sizeof(struct nlmsghdr)`, 16 bytes. -/
def sizeof_nlmsghdr : Nat := 16

/-- Modelled from the spec: round a length up to the alignment quantum,
`((len) + NLMSG_ALIGNTO - 1) & ~(NLMSG_ALIGNTO - 1)` in unsigned 32-bit arithmetic. -/
def NLMSG_ALIGN (len : Nat) : Nat :=
  ((len + NLMSG_ALIGNTO - 1) % 2 ^ 32) &&& (2 ^ 32 - 1 - (NLMSG_ALIGNTO - 1))

/-- Modelled from the spec: the aligned header size `NLMSG_HDRLEN`. -/
def NLMSG_HDRLEN : Nat := NLMSG_ALIGN sizeof_nlmsghdr

/-- Modelled from the spec: `NLMSG_LENGTH(len)`, a payload of `len` bytes plus the header. -/
def NLMSG_LENGTH (len : Nat) : Nat := len + NLMSG_HDRLEN

/-- Modelled from the spec: `NLMSG_SPACE(len)`, the aligned size of a frame with `len`
payload bytes; `NLMSG_SPACE(0)` is the minimum frame header size. -/
def NLMSG_SPACE (len : Nat) : Nat := NLMSG_ALIGN (NLMSG_LENGTH len)

/-! ## Data model -/

/-- The netlink control block of a buffer, `NETLINK_CB(skb)`: the two fields the gateway sets. -/
structure netlink_skb_parms where
  portid : Nat
  dst_group : Nat
deriving DecidableEq, Repr

/-- The socket buffer: `head` is the byte string, `data` the cursor (offset of `skb->data`
in `head`), `len` is `skb->len`. -/
structure sk_buff where
  head : List Nat
  data : Nat
  len : Nat
  cb : netlink_skb_parms
deriving DecidableEq, Repr

/-- A linear buffer holding exactly the given bytes, cursor at its first byte. -/
def skb_of_bytes (bytes : List Nat) : sk_buff :=
  { head := bytes, data := 0, len := bytes.length, cb := { portid := 0, dst_group := 0 } }

/-- The bytes from the cursor on, what `skb->data` points at. -/
def skb_data (skb : sk_buff) : List Nat := skb.head.drop skb.data

/-- Modelled from the spec: advancing the cursor, the kernel's `skb_pull(skb, len)`: refuses
(and changes nothing) when `len` exceeds `skb->len`, otherwise moves `data` forward by `len`
and takes `len` off `skb->len`. -/
def skb_pull (skb : sk_buff) (len : Nat) : sk_buff :=
  if len > skb.len then skb else { skb with data := skb.data + len, len := skb.len - len }

/-- The netlink frame header `struct nlmsghdr`. -/
structure nlmsghdr where
  nlmsg_len : Nat
  nlmsg_type : Nat
  nlmsg_flags : Nat
  nlmsg_seq : Nat
  nlmsg_pid : Nat
deriving DecidableEq, Repr

/-- Byte `i` of a byte string (0 past its end). -/
def rd8 (p : List Nat) (i : Nat) : Nat := p.getD i 0 % 256

/-- Little-endian 16-bit field at offset `i`. -/
def rd16 (p : List Nat) (i : Nat) : Nat := rd8 p i + 256 * rd8 p (i + 1)

/-- Little-endian 32-bit field at offset `i`. -/
def rd32 (p : List Nat) (i : Nat) : Nat := rd16 p i + 65536 * rd16 p (i + 2)

/-- The cast `(struct nlmsghdr *)p`: the header fields read from the first 16 bytes of `p`. -/
def nlmsghdr_of (p : List Nat) : nlmsghdr :=
  { nlmsg_len := rd32 p 0, nlmsg_type := rd16 p 4, nlmsg_flags := rd16 p 6,
    nlmsg_seq := rd32 p 8, nlmsg_pid := rd32 p 12 }

/-- The type `nl_srv_msg_callback`: a function pointer. -/
abbrev nl_srv_msg_callback := Nat

/-- The null function pointer. -/
def NULL : nl_srv_msg_callback := 0

/-- The module's globals: the endpoint `nl_srv_sock` (`none` is the null pointer) and the
array `nl_srv_msg_handler[NLINK_MAX_CALLBACKS]`. -/
structure nlink_state where
  nl_srv_sock : Option Nat
  nl_srv_msg_handler : List nl_srv_msg_callback
deriving DecidableEq, Repr

/-- What calling a handler does: given the buffer and the globals it returns them as the
handler leaves them. -/
abbrev callback_sem := nl_srv_msg_callback → sk_buff → nlink_state → sk_buff × nlink_state

/-- The handlers that touch neither the buffer nor the globals. -/
def pure_callbacks : callback_sem := fun _ skb g => (skb, g)

/-- State of the receive path: the buffer being parsed, the globals, and the ghost record of
the handler invocations made so far, oldest first, each with the buffer as it was passed. -/
structure rcv_state where
  skb : sk_buff
  g : nlink_state
  invoked : List (nl_srv_msg_callback × sk_buff)
deriving DecidableEq, Repr

/-- How a run of the receive path ended. -/
inductive Outcome where
  | returned
  | out_of_bounds
  | out_of_fuel
deriving DecidableEq, Repr

/-! ## Handler registry -/

/-- Read of `nl_srv_msg_handler[i]`; `none` when `i` is outside the array. -/
def table_read (t : List nl_srv_msg_callback) (i : Int) : Option nl_srv_msg_callback :=
  if 0 ≤ i then t[i.toNat]? else none

/-- Write of `nl_srv_msg_handler[i] = v`; `none` when `i` is outside the array. -/
def table_write (t : List nl_srv_msg_callback) (i : Int) (v : nl_srv_msg_callback) :
    Option (List nl_srv_msg_callback) :=
  if 0 ≤ i ∧ i.toNat < t.length then some (t.set i.toNat v) else none

/-- Source lines 126-142.  Returns the return code and the globals; `none` is an access
outside the array. -/
def nl_srv_register (cfg : Config) (g : nlink_state) (msg_type : Int)
    (msg_handler : nl_srv_msg_callback) : Option (Int × nlink_state) :=
  if msg_type ≥ cfg.WLAN_NL_MSG_BASE ∧ msg_type < cfg.WLAN_NL_MSG_MAX ∧ msg_handler ≠ NULL then
    match table_write g.nl_srv_msg_handler (msg_type - cfg.WLAN_NL_MSG_BASE) msg_handler with
    | some t => some (0, { g with nl_srv_msg_handler := t })
    | none => none
  else
    some (-EINVAL, g)

/-- Source lines 146-163.  The stored handler is read only when the type is in range
(short-circuit `&&`). -/
def nl_srv_unregister (cfg : Config) (g : nlink_state) (msg_type : Int)
    (msg_handler : nl_srv_msg_callback) : Option (Int × nlink_state) :=
  if msg_type ≥ cfg.WLAN_NL_MSG_BASE ∧ msg_type < cfg.WLAN_NL_MSG_MAX then
    match table_read g.nl_srv_msg_handler (msg_type - cfg.WLAN_NL_MSG_BASE) with
    | none => none
    | some cur =>
      if cur = msg_handler then
        match table_write g.nl_srv_msg_handler (msg_type - cfg.WLAN_NL_MSG_BASE) NULL with
        | some t => some (0, { g with nl_srv_msg_handler := t })
        | none => none
      else
        some (-EINVAL, g)
  else
    some (-EINVAL, g)

/-! ## Receive dispatcher -/

/-- The call `(nl_srv_msg_handler[type])(skb)`: record it, then let the handler act. -/
def invoke (call : callback_sem) (h : nl_srv_msg_callback) (s : rcv_state) : rcv_state :=
  let r := call h s.skb s.g
  { skb := r.1, g := r.2, invoked := s.invoked ++ [(h, s.skb)] }

/-- Source lines 457-497.  `nlh` is the header at the cursor of `s.skb`, read by the caller. -/
def nl_srv_rcv_msg (cfg : Config) (call : callback_sem) (s : rcv_state) (nlh : nlmsghdr) :
    Outcome × rcv_state :=
  if nlh.nlmsg_flags &&& NLM_F_REQUEST = 0 then
    (Outcome.returned, s)
  else
    let type : Int := nlh.nlmsg_type
    if type < cfg.WLAN_NL_MSG_BASE ∨ type ≥ cfg.WLAN_NL_MSG_MAX then
      (Outcome.returned, s)
    else if nlh.nlmsg_len < NLMSG_LENGTH cfg.sizeof_tAniMsgHdr then
      (Outcome.returned, s)
    else
      let type := type - cfg.WLAN_NL_MSG_BASE
      match table_read s.g.nl_srv_msg_handler type with
      | none => (Outcome.out_of_bounds, s)
      | some h =>
        if h ≠ NULL then (Outcome.returned, invoke call h s)
        else (Outcome.returned, s)

/-- Source lines 429-451, the `while` loop on fuel: one unit per evaluation of the loop
condition. -/
def nl_srv_rcv_skb (cfg : Config) (call : callback_sem) : Nat → rcv_state → Outcome × rcv_state
  | 0, s => (Outcome.out_of_fuel, s)
  | fuel + 1, s =>
    if s.skb.len ≥ NLMSG_SPACE 0 then
      let nlh := nlmsghdr_of (skb_data s.skb)
      if nlh.nlmsg_len < sizeof_nlmsghdr ∨ s.skb.len < nlh.nlmsg_len then
        (Outcome.returned, s)
      else
        let rlen := NLMSG_ALIGN nlh.nlmsg_len
        let rlen := if rlen > s.skb.len then s.skb.len else rlen
        match nl_srv_rcv_msg cfg call s nlh with
        | (Outcome.returned, s1) =>
          nl_srv_rcv_skb cfg call fuel { s1 with skb := skb_pull s1.skb rlen }
        | r => r
    else
      (Outcome.returned, s)

/-- The receive path started on a fresh buffer holding `bytes`, nothing invoked yet. -/
def rcv_start (g : nlink_state) (bytes : List Nat) : rcv_state :=
  { skb := skb_of_bytes bytes, g := g, invoked := [] }

/-- The handlers invoked by a run, in order. -/
def handlers_of (r : Outcome × rcv_state) : List nl_srv_msg_callback :=
  r.2.invoked.map Prod.fst

/-- What an invocation shows: the handler, and the bytes its buffer held from the cursor on
(`skb->len` bytes at `skb->data`). -/
def invocation_view (e : nl_srv_msg_callback × sk_buff) : nl_srv_msg_callback × List Nat :=
  (e.1, (skb_data e.2).take e.2.len)

/-- The invocations of a run, in order, each as `invocation_view` shows it. -/
def calls_of (r : Outcome × rcv_state) : List (nl_srv_msg_callback × List Nat) :=
  r.2.invoked.map invocation_view

/-- The handler stored for the type of the frame that starts `p` (`NULL` when the type has
no slot). -/
def registered_handler (cfg : Config) (g : nlink_state) (p : List Nat) : nl_srv_msg_callback :=
  (table_read g.nl_srv_msg_handler ((nlmsghdr_of p).nlmsg_type - cfg.WLAN_NL_MSG_BASE)).getD NULL

/-- The handler `nl_srv_rcv_msg` calls for a header, if it calls one: the frame is a
request, its type is in range, it carries a `tAniMsgHdr`, and the slot is not empty. -/
def dispatch_target (cfg : Config) (t : List nl_srv_msg_callback) (nlh : nlmsghdr) :
    Option nl_srv_msg_callback :=
  if nlh.nlmsg_flags &&& NLM_F_REQUEST = 0 then none
  else if (nlh.nlmsg_type : Int) < cfg.WLAN_NL_MSG_BASE ∨
      (nlh.nlmsg_type : Int) ≥ cfg.WLAN_NL_MSG_MAX then none
  else if nlh.nlmsg_len < NLMSG_LENGTH cfg.sizeof_tAniMsgHdr then none
  else
    match table_read t ((nlh.nlmsg_type : Int) - cfg.WLAN_NL_MSG_BASE) with
    | some h => if h ≠ NULL then some h else none
    | none => none

/-- The read of the table that `nl_srv_rcv_msg` makes for a header, when it makes one (the
frame passed the three checks), is inside the array. -/
def has_slot (cfg : Config) (t : List nl_srv_msg_callback) (nlh : nlmsghdr) : Prop :=
  nlh.nlmsg_flags &&& NLM_F_REQUEST ≠ 0 →
  cfg.WLAN_NL_MSG_BASE ≤ (nlh.nlmsg_type : Int) → (nlh.nlmsg_type : Int) < cfg.WLAN_NL_MSG_MAX →
  NLMSG_LENGTH cfg.sizeof_tAniMsgHdr ≤ nlh.nlmsg_len →
    ∃ h, table_read t ((nlh.nlmsg_type : Int) - cfg.WLAN_NL_MSG_BASE) = some h

/-- A frame as it lies in a buffer: the header declares at least the header size, and the
frame occupies its declared length rounded up to the alignment quantum. -/
def well_framed (f : List Nat) : Prop :=
  sizeof_nlmsghdr ≤ (nlmsghdr_of f).nlmsg_len ∧ f.length = NLMSG_ALIGN (nlmsghdr_of f).nlmsg_len

instance (f : List Nat) : Decidable (well_framed f) := by
  unfold well_framed; infer_instance

/-- A valid request frame with a known type: the declared length is the frame's size, is
4-byte aligned and covers the header and a `tAniMsgHdr`; the request flag is set; the type is
in range; a non-null handler is stored for it. -/
def valid_request_frame (cfg : Config) (g : nlink_state) (f : List Nat) : Prop :=
  (nlmsghdr_of f).nlmsg_len = f.length ∧
  (nlmsghdr_of f).nlmsg_len % 4 = 0 ∧
  NLMSG_LENGTH cfg.sizeof_tAniMsgHdr ≤ (nlmsghdr_of f).nlmsg_len ∧
  (nlmsghdr_of f).nlmsg_flags &&& NLM_F_REQUEST ≠ 0 ∧
  cfg.WLAN_NL_MSG_BASE ≤ ((nlmsghdr_of f).nlmsg_type : Int) ∧
  ((nlmsghdr_of f).nlmsg_type : Int) < cfg.WLAN_NL_MSG_MAX ∧
  registered_handler cfg g f ≠ NULL

instance (cfg : Config) (g : nlink_state) (f : List Nat) :
    Decidable (valid_request_frame cfg g f) := by
  unfold valid_request_frame; infer_instance

/-- What the dispatcher is expected to record for a run of frames laid out from the cursor of
`skb`: one entry per frame that has a dispatch target, with the buffer at that frame. -/
def expected_trace (cfg : Config) (t : List nl_srv_msg_callback) :
    sk_buff → List (List Nat) → List (nl_srv_msg_callback × sk_buff)
  | _, [] => []
  | skb, f :: fs =>
    (match dispatch_target cfg t (nlmsghdr_of f) with
      | some h => [(h, skb)]
      | none => []) ++ expected_trace cfg t (skb_pull skb f.length) fs

/-- The same expectation, showing for each entry the bytes from the frame on; `tl` is what
follows the last frame. -/
def expected_calls (cfg : Config) (t : List nl_srv_msg_callback) (tl : List Nat) :
    List (List Nat) → List (nl_srv_msg_callback × List Nat)
  | [] => []
  | f :: fs =>
    (match dispatch_target cfg t (nlmsghdr_of f) with
      | some h => [(h, f ++ (fs.flatten ++ tl))]
      | none => []) ++ expected_calls cfg t tl fs

/-- A frame built from its fields: the 16 header bytes, little-endian, then the payload. -/
def nlmsg_bytes (len type flags seq pid : Nat) (payload : List Nat) : List Nat :=
  [len % 256, len / 256 % 256, len / 65536 % 256, len / 16777216 % 256,
   type % 256, type / 256 % 256, flags % 256, flags / 256 % 256,
   seq % 256, seq / 256 % 256, seq / 65536 % 256, seq / 16777216 % 256,
   pid % 256, pid / 256 % 256, pid / 65536 % 256, pid / 16777216 % 256] ++ payload

/-! ## Delivery gateway -/

/-- The allocation mode handed to the transport, `GFP_KERNEL` or `GFP_ATOMIC`. -/
inductive gfp_t where
  | GFP_KERNEL
  | GFP_ATOMIC
deriving DecidableEq, Repr

/-- What the gateway does to the buffers and to its collaborators, one constructor per call
that the source makes outside the file. -/
inductive Effect where
  | dev_kfree_skb (skb : sk_buff)
  | netlink_unicast (ssk : Nat) (skb : sk_buff) (portid : Int) (nonblock : Int)
  | netlink_broadcast (ssk : Nat) (skb : sk_buff) (portid : Nat) (group : Nat)
      (allocation : gfp_t)
  | vos_mem_malloc (size : Nat)
  | vos_mem_free (buf : List Nat)
  | nlmsg_new (flags : gfp_t)
  | nlmsg_free
  | genlmsg_put (portid : Nat) (seq : Nat) (flags : Int) (cmd : Nat)
  | nla_nest_start
  | nla_put (attrlen : Int) (data : List Nat)
  | nla_nest_end
  | genlmsg_end
  | genlmsg_cancel
  | genlmsg_multicast_netns (portid : Nat) (group : Int) (flags : gfp_t)
deriving DecidableEq, Repr

/-- The collaborators of the gateway, as far as the source depends on them: the return codes
of the transport primitives, the execution context, and whether each step of building the
enveloped message succeeds. -/
structure Collaborators where
  netlink_unicast : sk_buff → Int → Int → Int
  netlink_broadcast : sk_buff → Nat → gfp_t → Int
  in_atomic_context : Bool
  nlmsg_new_ok : Bool
  genlmsg_put_ok : Bool
  nla_nest_start_ok : Bool
  nla_put : Int
  cld80211_get_mcgrp_id : Int → Int

/-- Modelled from the spec: the ownership model of the forwarded buffer.  A call releases the
buffer when the gateway frees it (`dev_kfree_skb`) or hands it to the transport
(`netlink_unicast`, `netlink_broadcast`, which take over the buffer whatever they return). -/
def Effect.releases_skb : Effect → Bool
  | Effect.dev_kfree_skb _ => true
  | Effect.netlink_unicast _ _ _ _ => true
  | Effect.netlink_broadcast _ _ _ _ _ => true
  | _ => false

/-- How many times a sequence of effects releases the forwarded buffer. -/
def releases (effs : List Effect) : Nat := effs.countP Effect.releases_skb

/-- Whether an effect is a call of a transport send primitive. -/
def Effect.is_transport_send : Effect → Bool
  | Effect.netlink_unicast _ _ _ _ => true
  | Effect.netlink_broadcast _ _ _ _ _ => true
  | Effect.genlmsg_multicast_netns _ _ _ => true
  | _ => false

/-- Whether an effect frees the scratch copy of the payload. -/
def Effect.frees_tempbuf : Effect → Bool
  | Effect.vos_mem_free _ => true
  | _ => false

/-- The choice `flags = GFP_KERNEL; if (in_interrupt() || irqs_disabled() || in_atomic())
flags = GFP_ATOMIC`. -/
def gfp_flags (env : Collaborators) : gfp_t :=
  if env.in_atomic_context then gfp_t.GFP_ATOMIC else gfp_t.GFP_KERNEL

namespace Direct

/-- Source lines 358-380 (build without `CNSS_GENL`).  Returns the return code and the
effects. -/
def nl_srv_ucast (env : Collaborators) (g : nlink_state) (skb : sk_buff) (dst_pid flag : Int) :
    Int × List Effect :=
  let skb := { skb with cb := { portid := 0, dst_group := 0 } }
  match g.nl_srv_sock with
  | some sk => (env.netlink_unicast skb dst_pid flag, [Effect.netlink_unicast sk skb dst_pid flag])
  | none => (0, [Effect.dev_kfree_skb skb])

/-- Source lines 382-408 (build without `CNSS_GENL`). -/
def nl_srv_bcast (cfg : Config) (env : Collaborators) (g : nlink_state) (skb : sk_buff) :
    Int × List Effect :=
  let flags := gfp_flags env
  let skb := { skb with cb := { portid := 0, dst_group := cfg.WLAN_NLINK_MCAST_GRP_ID } }
  match g.nl_srv_sock with
  | some sk =>
    (env.netlink_broadcast skb cfg.WLAN_NLINK_MCAST_GRP_ID flags,
      [Effect.netlink_broadcast sk skb 0 cfg.WLAN_NLINK_MCAST_GRP_ID flags])
  | none => (0, [Effect.dev_kfree_skb skb])

end Direct

/-- Conversion of an `int` to `uint8_t`. -/
def to_uint8 (x : Int) : Nat := (x % 2 ^ 8).toNat

/-- Conversion of an `int` to `uint32_t`. -/
def to_uint32 (x : Int) : Nat := (x % 2 ^ 32).toNat

/-- Conversion of a `uint32_t` to `int`. -/
def to_int32 (n : Nat) : Int :=
  if n % 2 ^ 32 < 2 ^ 31 then ((n % 2 ^ 32 : Nat) : Int) else ((n % 2 ^ 32 : Nat) : Int) - 2 ^ 32

namespace CnssGenl

/-- Source lines 201-235, with `nl80211hdr_put` (lines 179-185) inlined; `portid` and `seq` are
`uint32_t`, `flags` and `len` are `int`, `cmd` is `uint8_t`. -/
def cld80211_fill_data (env : Collaborators) (portid : Nat) (seq : Nat) (flags : Int)
    (cmd : Nat) (buf : List Nat) (len : Int) : Int × List Effect :=
  if ¬ env.genlmsg_put_ok then
    (-EPERM, [Effect.genlmsg_put portid seq flags cmd])
  else if ¬ env.nla_nest_start_ok then
    (-EPERM, [Effect.genlmsg_put portid seq flags cmd, Effect.nla_nest_start,
      Effect.genlmsg_cancel])
  else if env.nla_put ≠ 0 then
    (-EPERM, [Effect.genlmsg_put portid seq flags cmd, Effect.nla_nest_start,
      Effect.nla_put len buf, Effect.genlmsg_cancel])
  else
    (0, [Effect.genlmsg_put portid seq flags cmd, Effect.nla_nest_start,
      Effect.nla_put len buf, Effect.nla_nest_end, Effect.genlmsg_end])

/-- Source lines 249-279; `pid`, `app_id` and `len` are `int`, and the call of line 267
converts `pid` to the `uint32_t portid` and `app_id` to the `uint8_t cmd` of
`cld80211_fill_data`. -/
def send_msg_to_cld80211 (env : Collaborators) (cld_mcgroup_id pid app_id : Int)
    (buf : List Nat) (len : Int) : Int × List Effect :=
  let flags := gfp_flags env
  if ¬ env.nlmsg_new_ok then
    (-EPERM, [Effect.nlmsg_new flags])
  else
    let r := cld80211_fill_data env (to_uint32 pid) 0 0 (to_uint8 app_id) buf len
    if r.1 ≠ 0 then
      (-EPERM, [Effect.nlmsg_new flags] ++ r.2 ++ [Effect.nlmsg_free])
    else
      let mcgroup_id := env.cld80211_get_mcgrp_id cld_mcgroup_id
      if mcgroup_id = -1 then
        (-EINVAL, [Effect.nlmsg_new flags] ++ r.2 ++ [Effect.nlmsg_free])
      else
        (0, [Effect.nlmsg_new flags] ++ r.2 ++
          [Effect.genlmsg_multicast_netns 0 mcgroup_id flags])

/-- The payload of the frame at the cursor and its length, as lines 294-296 and 332-334
compute them: `NLMSG_DATA(nlh)` and `nlmsg_len(nlh)`, the latter stored in a `uint32_t`. -/
def payload_of (skb : sk_buff) : List Nat × Nat :=
  let nlh := nlmsghdr_of (skb_data skb)
  let msg_len := (nlh.nlmsg_len + 2 ^ 32 - NLMSG_HDRLEN) % 2 ^ 32
  (((skb_data skb).drop (NLMSG_LENGTH 0)).take msg_len, msg_len)

/-- Source lines 292-312 (build with `CNSS_GENL`); the `uint32_t msg_len` becomes the `int len`
of `send_msg_to_cld80211`. -/
def nl_srv_bcast (env : Collaborators) (skb : sk_buff) (mcgroup_id app_id : Int) :
    Int × List Effect :=
  let tempbuf := (payload_of skb).1
  let msg_len := (payload_of skb).2
  let r := send_msg_to_cld80211 env mcgroup_id 0 app_id tempbuf (to_int32 msg_len)
  if r.1 ≠ 0 then
    (-EPERM, [Effect.vos_mem_malloc msg_len] ++ r.2)
  else
    (0, [Effect.vos_mem_malloc msg_len] ++ r.2 ++
      [Effect.dev_kfree_skb skb, Effect.vos_mem_free tempbuf])

/-- Source lines 329-351 (build with `CNSS_GENL`); `flag` is not used. -/
def nl_srv_ucast (env : Collaborators) (skb : sk_buff) (dst_pid _flag app_id mcgroup_id : Int) :
    Int × List Effect :=
  let tempbuf := (payload_of skb).1
  let msg_len := (payload_of skb).2
  let r := send_msg_to_cld80211 env mcgroup_id dst_pid app_id tempbuf (to_int32 msg_len)
  if r.1 ≠ 0 then
    (-EPERM, [Effect.vos_mem_malloc msg_len] ++ r.2)
  else
    (0, [Effect.vos_mem_malloc msg_len] ++ r.2 ++
      [Effect.dev_kfree_skb skb, Effect.vos_mem_free tempbuf])

end CnssGenl

/-! ## Lifecycle -/

/-- Source lines 76-105.  `netlink_kernel_create` is what the kernel returns for the endpoint:
a socket, or `none` for the null pointer.  The `memset` leaves the array of
`NLINK_MAX_CALLBACKS` slots all `NULL`. -/
def nl_srv_init (cfg : Config) (netlink_kernel_create : Option Nat) (g : nlink_state) :
    Int × nlink_state :=
  let g1 := { g with nl_srv_sock := netlink_kernel_create }
  match g1.nl_srv_sock with
  | some _ =>
    (0, { g1 with nl_srv_msg_handler := List.replicate cfg.NLINK_MAX_CALLBACKS NULL })
  | none => (-ECONNREFUSED, g1)

/-- Source lines 112-119.  Returns the globals and the socket that was handed to
`netlink_kernel_release`. -/
def nl_srv_exit (g : nlink_state) : nlink_state × Option Nat :=
  ({ g with nl_srv_sock := none }, g.nl_srv_sock)

/-- Source lines 508-514.  Returns the return code and the globals. -/
def nl_srv_is_initialized (g : nlink_state) : Int × nlink_state :=
  match g.nl_srv_sock with
  | some _ => (0, g)
  | none => (-EPERM, g)

/-! ## Sample inputs -/

/-- A table of `wlan_cfg` with handlers 101 and 102 stored for the first two types. -/
def sample_state : nlink_state :=
  { nl_srv_sock := some 1, nl_srv_msg_handler := [101, 102, 0, 0, 0, 0, 0, 0, 0, 0, 0, 0, 0] }
/-- A request frame of type `0x10`, declared length 20. -/
def sample_frame_a : List Nat := nlmsg_bytes 20 16 1 0 0 [1, 2, 3, 4]
/-- A request frame of type `0x11`, declared length 24. -/
def sample_frame_b : List Nat := nlmsg_bytes 24 17 1 1 0 [5, 6, 7, 8, 9, 10, 11, 12]
/-- A frame of type `0x10`, declared length 20, whose request flag is cleared. -/
def sample_frame_noreq : List Nat := nlmsg_bytes 20 16 0 0 0 [1, 2, 3, 4]
/-- A well-framed request frame of type `0x30`, outside the range of `wlan_cfg`. -/
def sample_frame_badtype : List Nat := nlmsg_bytes 20 48 1 0 0 [9, 9, 9, 9]
/-- A buffer whose first header declares 64 bytes while only 20 are there. -/
def sample_frame_overlong : List Nat := nlmsg_bytes 64 16 1 0 0 [1, 2, 3, 4]
/-- A request frame of type `0x11` that is a bare header: declared length 16. -/
def sample_frame_bare : List Nat := nlmsg_bytes 16 17 1 0 0 []
/-- The globals with the endpoint absent. -/
def sample_state_down : nlink_state :=
  { nl_srv_sock := none, nl_srv_msg_handler := sample_state.nl_srv_msg_handler }
/-- Collaborators for which every step succeeds. -/
def sample_env : Collaborators :=
  { netlink_unicast := fun _ _ _ => 0, netlink_broadcast := fun _ _ _ => 0,
    in_atomic_context := false, nlmsg_new_ok := true, genlmsg_put_ok := true,
    nla_nest_start_ok := true, nla_put := 0, cld80211_get_mcgrp_id := fun _ => 5 }
/-- Collaborators out of memory: `nlmsg_new` returns no buffer. -/
def sample_env_nomem : Collaborators := { sample_env with nlmsg_new_ok := false }
/-- Collaborators for which the multicast group is not known. -/
def sample_env_nogroup : Collaborators :=
  { sample_env with cld80211_get_mcgrp_id := fun _ => -1 }
/-- A request frame of type `0x10` whose declared length, 21, is not a multiple of 4 and which
carries no padding: 21 bytes. -/
def sample_frame_odd : List Nat := nlmsg_bytes 21 16 1 0 0 [1, 2, 3, 4, 5]
/-- A request frame of type `0x10` whose declared length, 18, does not cover a `tAniMsgHdr`,
padded to 20 bytes. -/
def sample_frame_short : List Nat := nlmsg_bytes 18 16 1 0 0 [1, 2, 0, 0]
/-- The header of a request frame of type `0x10` that declares 2^32 - 3 bytes. -/
def sample_hdr_huge : List Nat := nlmsg_bytes 4294967293 16 1 0 0 []

/-! ## Arithmetic of the framing macros -/

theorem land_mask_eq (x : Nat) (h : x < 2 ^ 32) : x &&& 4294967292 = x / 4 * 4 := by
  apply Nat.eq_of_testBit_eq
  intro i
  have e1 : (4294967292 : Nat) = 2 ^ 2 * (2 ^ 30 - 1) := by norm_num
  have e2 : x / 4 * 4 = 2 ^ 2 * (x >>> 2) := by
    rw [Nat.shiftRight_eq_div_pow]; norm_num; omega
  rw [Nat.testBit_land, e1, e2, Nat.testBit_mul_pow_two, Nat.testBit_mul_pow_two,
    Nat.testBit_two_pow_sub_one, Nat.testBit_shiftRight]
  by_cases h2 : 2 ≤ i
  · have h3 : 2 + (i - 2) = i := by omega
    simp only [h2, h3, ge_iff_le, decide_True, Bool.true_and]
    by_cases h4 : i - 2 < 30
    · simp [h4]
    · simp only [h4, decide_False, Bool.and_false]
      symm
      apply Nat.testBit_lt_two_pow
      calc x < 2 ^ 32 := h
        _ ≤ 2 ^ i := Nat.pow_le_pow_right (by norm_num) (by omega)
  · simp [h2]

theorem NLMSG_ALIGN_eq (len : Nat) : NLMSG_ALIGN len = (len + 3) % 2 ^ 32 / 4 * 4 := by
  unfold NLMSG_ALIGN NLMSG_ALIGNTO
  exact land_mask_eq _ (Nat.mod_lt _ (by norm_num))

theorem NLMSG_HDRLEN_eq : NLMSG_HDRLEN = 16 := by decide

theorem NLMSG_SPACE_zero : NLMSG_SPACE 0 = 16 := by decide

theorem NLMSG_LENGTH_eq (n : Nat) : NLMSG_LENGTH n = n + 16 := by
  unfold NLMSG_LENGTH; rw [NLMSG_HDRLEN_eq]

theorem NLMSG_ALIGN_of_aligned (len : Nat) (h4 : len % 4 = 0) (hlt : len < 2 ^ 32) :
    NLMSG_ALIGN len = len := by
  rw [NLMSG_ALIGN_eq]
  have : (len + 3) % 2 ^ 32 = len + 3 := Nat.mod_eq_of_lt (by omega)
  rw [this]; omega

theorem land_request (x : Nat) : x &&& NLM_F_REQUEST = x % 2 := by
  unfold NLM_F_REQUEST
  exact Nat.and_one_is_mod x

/-! ## Reading the header -/

theorem rd8_lt (p : List Nat) (i : Nat) : rd8 p i < 256 := by
  unfold rd8; exact Nat.mod_lt _ (by norm_num)

theorem rd16_lt (p : List Nat) (i : Nat) : rd16 p i < 65536 := by
  unfold rd16
  have h0 := rd8_lt p i
  have h1 := rd8_lt p (i + 1)
  omega

theorem rd32_lt (p : List Nat) (i : Nat) : rd32 p i < 2 ^ 32 := by
  unfold rd32
  have h0 := rd16_lt p i
  have h1 := rd16_lt p (i + 2)
  norm_num
  omega

theorem rd8_append (f r : List Nat) (i : Nat) (h : i < f.length) :
    rd8 (f ++ r) i = rd8 f i := by
  unfold rd8
  rw [List.getD_append _ _ _ _ h]

theorem nlmsghdr_of_append (f r : List Nat) (h : 16 ≤ f.length) :
    nlmsghdr_of (f ++ r) = nlmsghdr_of f := by
  unfold nlmsghdr_of rd32 rd16
  simp only [rd8_append f r _ (show 0 < f.length by omega),
    rd8_append f r _ (show 0 + 1 < f.length by omega),
    rd8_append f r _ (show 0 + 2 < f.length by omega),
    rd8_append f r _ (show 0 + 2 + 1 < f.length by omega),
    rd8_append f r _ (show 4 < f.length by omega),
    rd8_append f r _ (show 4 + 1 < f.length by omega),
    rd8_append f r _ (show 6 < f.length by omega),
    rd8_append f r _ (show 6 + 1 < f.length by omega),
    rd8_append f r _ (show 8 < f.length by omega),
    rd8_append f r _ (show 8 + 1 < f.length by omega),
    rd8_append f r _ (show 8 + 2 < f.length by omega),
    rd8_append f r _ (show 8 + 2 + 1 < f.length by omega),
    rd8_append f r _ (show 12 < f.length by omega),
    rd8_append f r _ (show 12 + 1 < f.length by omega),
    rd8_append f r _ (show 12 + 2 < f.length by omega),
    rd8_append f r _ (show 12 + 2 + 1 < f.length by omega)]

theorem nlmsghdr_of_nlmsg_bytes (len type flags seq pid : Nat) (payload : List Nat) :
    nlmsghdr_of (nlmsg_bytes len type flags seq pid payload) =
      { nlmsg_len := len % 2 ^ 32, nlmsg_type := type % 65536, nlmsg_flags := flags % 65536,
        nlmsg_seq := seq % 2 ^ 32, nlmsg_pid := pid % 2 ^ 32 } := by
  simp only [nlmsghdr_of, nlmsg_bytes, rd32, rd16, rd8, List.cons_append, List.nil_append,
    List.getD_cons_zero, List.getD_cons_succ, nlmsghdr.mk.injEq]
  refine ⟨?_, ?_, ?_, ?_, ?_⟩ <;> omega

/-! ## The handler table -/

theorem table_read_in_range (cfg : Config) (t : List nl_srv_msg_callback) (ty : Int)
    (ht : cfg.WLAN_NL_MSG_MAX - cfg.WLAN_NL_MSG_BASE ≤ t.length)
    (h1 : cfg.WLAN_NL_MSG_BASE ≤ ty) (h2 : ty < cfg.WLAN_NL_MSG_MAX) :
    ∃ h, table_read t (ty - cfg.WLAN_NL_MSG_BASE) = some h := by
  unfold table_read
  have h0 : 0 ≤ ty - cfg.WLAN_NL_MSG_BASE := by omega
  have hlt : (ty - cfg.WLAN_NL_MSG_BASE).toNat < t.length := by omega
  rw [if_pos h0]
  exact ⟨t[(ty - cfg.WLAN_NL_MSG_BASE).toNat], List.getElem?_eq_getElem hlt⟩

theorem has_slot_of_size (cfg : Config) (t : List nl_srv_msg_callback) (nlh : nlmsghdr)
    (ht : cfg.WLAN_NL_MSG_MAX - cfg.WLAN_NL_MSG_BASE ≤ t.length) : has_slot cfg t nlh :=
  fun _ h1 h2 _ => table_read_in_range cfg t nlh.nlmsg_type ht h1 h2

/-! ## One frame: `nl_srv_rcv_msg` -/

theorem nl_srv_rcv_msg_eq (cfg : Config) (call : callback_sem) (s : rcv_state) (nlh : nlmsghdr)
    (hs : has_slot cfg s.g.nl_srv_msg_handler nlh) :
    nl_srv_rcv_msg cfg call s nlh =
      (Outcome.returned,
        match dispatch_target cfg s.g.nl_srv_msg_handler nlh with
        | some h => invoke call h s
        | none => s) := by
  unfold nl_srv_rcv_msg dispatch_target
  by_cases h1 : nlh.nlmsg_flags &&& NLM_F_REQUEST = 0
  · simp only [h1, if_true]
  · simp only [h1, if_false]
    by_cases h2 : (nlh.nlmsg_type : Int) < cfg.WLAN_NL_MSG_BASE ∨
        (nlh.nlmsg_type : Int) ≥ cfg.WLAN_NL_MSG_MAX
    · simp only [h2, if_true]
    · simp only [h2, if_false]
      by_cases h3 : nlh.nlmsg_len < NLMSG_LENGTH cfg.sizeof_tAniMsgHdr
      · simp only [h3, if_true]
      · simp only [h3, if_false]
        obtain ⟨h, hh⟩ := hs h1 (by omega) (by omega) (by omega)
        rw [hh]
        dsimp only
        by_cases h4 : h ≠ NULL
        · rw [if_pos h4, if_pos h4]
        · rw [if_neg h4, if_neg h4]

theorem invoke_pure (call : callback_sem) (hpure : ∀ h skb g, call h skb g = (skb, g))
    (h : nl_srv_msg_callback) (s : rcv_state) :
    invoke call h s = { s with invoked := s.invoked ++ [(h, s.skb)] } := by
  unfold invoke
  rw [hpure]

/-! ## The loop on a buffer of frames -/

theorem skb_data_pull (skb : sk_buff) (n : Nat) (h : n ≤ skb.len) :
    skb_data (skb_pull skb n) = (skb_data skb).drop n := by
  unfold skb_pull skb_data
  rw [if_neg (by omega)]
  simp only [List.drop_drop]

theorem skb_pull_len (skb : sk_buff) (n : Nat) (h : n ≤ skb.len) :
    (skb_pull skb n).len = skb.len - n := by
  unfold skb_pull
  rw [if_neg (by omega)]

theorem well_framed_len (f : List Nat) (h : well_framed f) :
    16 ≤ f.length ∧ (nlmsghdr_of f).nlmsg_len ≤ f.length := by
  obtain ⟨h1, h2⟩ := h
  unfold sizeof_nlmsghdr at h1
  rw [NLMSG_ALIGN_eq] at h2
  have hlt : (nlmsghdr_of f).nlmsg_len < 2 ^ 32 := rd32_lt f 0
  have hne : f.length ≠ 0 := by
    intro h0
    have hnil : f = [] := List.length_eq_zero.mp h0
    rw [hnil] at h1
    exact absurd h1 (by decide)
  norm_num at hlt h2
  omega

/-- One iteration of the loop on a well-framed frame at the cursor: the frame goes to its
dispatch target, if it has one, and then the cursor is pulled by the frame's size. -/
theorem nl_srv_rcv_skb_step (cfg : Config) (call : callback_sem) (fuel : Nat) (s : rcv_state)
    (f rest : List Nat) (hf : well_framed f)
    (hs : has_slot cfg s.g.nl_srv_msg_handler (nlmsghdr_of f))
    (hd : skb_data s.skb = f ++ rest) (hl : s.skb.len = (f ++ rest).length) :
    nl_srv_rcv_skb cfg call (fuel + 1) s =
      nl_srv_rcv_skb cfg call fuel
        (match dispatch_target cfg s.g.nl_srv_msg_handler (nlmsghdr_of f) with
          | some h =>
            { invoke call h s with skb := skb_pull (invoke call h s).skb f.length }
          | none => { s with skb := skb_pull s.skb f.length }) := by
  obtain ⟨h16, hle⟩ := well_framed_len f hf
  have hal : NLMSG_ALIGN (nlmsghdr_of f).nlmsg_len = f.length := hf.2.symm
  have hsz : sizeof_nlmsghdr ≤ (nlmsghdr_of f).nlmsg_len := hf.1
  rw [List.length_append] at hl
  rw [nl_srv_rcv_skb]
  rw [if_pos (by rw [NLMSG_SPACE_zero]; omega)]
  simp only [hd, nlmsghdr_of_append f rest h16]
  rw [if_neg (by omega), hal, if_neg (by omega), nl_srv_rcv_msg_eq cfg call s _ hs]
  cases hdt : dispatch_target cfg s.g.nl_srv_msg_handler (nlmsghdr_of f) with
  | none => rfl
  | some h => rfl

/-- The loop over a buffer that holds well-framed frames and then fewer than 16 bytes, for
handlers that change nothing: it returns, the cursor ends after the last frame, and the
invocations are those of `expected_trace`. -/
theorem nl_srv_rcv_skb_frames (cfg : Config) (call : callback_sem)
    (hpure : ∀ h skb g, call h skb g = (skb, g)) (tl : List Nat) (htl : tl.length < 16) :
    ∀ (fs : List (List Nat)) (s : rcv_state) (k : Nat),
      (∀ f ∈ fs, well_framed f ∧ has_slot cfg s.g.nl_srv_msg_handler (nlmsghdr_of f)) →
      skb_data s.skb = fs.flatten ++ tl →
      s.skb.len = (fs.flatten ++ tl).length →
      nl_srv_rcv_skb cfg call (fs.length + 1 + k) s =
        (Outcome.returned,
          { skb := fs.foldl (fun b f => skb_pull b f.length) s.skb, g := s.g,
            invoked := s.invoked ++ expected_trace cfg s.g.nl_srv_msg_handler s.skb fs }) := by
  intro fs
  induction fs with
  | nil =>
    intro s k _ _ hl
    simp only [List.flatten_nil, List.nil_append] at hl
    simp only [List.length_nil, Nat.zero_add, Nat.add_comm 1 k]
    rw [nl_srv_rcv_skb, if_neg (by rw [NLMSG_SPACE_zero]; omega)]
    simp [expected_trace]
  | cons f fs ih =>
    intro s k hfs hd hl
    obtain ⟨hf, hsl⟩ := hfs f (List.mem_cons_self _ _)
    have hfs2 : ∀ x ∈ fs, well_framed x ∧ has_slot cfg s.g.nl_srv_msg_handler (nlmsghdr_of x) :=
      fun x hx => hfs x (List.mem_cons_of_mem _ hx)
    simp only [List.flatten_cons, List.append_assoc] at hd hl
    have e : (f :: fs).length + 1 + k = (fs.length + 1 + k) + 1 := by
      simp only [List.length_cons]; omega
    rw [e, nl_srv_rcv_skb_step cfg call _ s f (fs.flatten ++ tl) hf hsl hd hl]
    have hfl : f.length ≤ s.skb.len := by rw [hl, List.length_append]; omega
    have hdp : skb_data (skb_pull s.skb f.length) = fs.flatten ++ tl := by
      rw [skb_data_pull _ _ hfl, hd, List.drop_left]
    have hlp : (skb_pull s.skb f.length).len = (fs.flatten ++ tl).length := by
      rw [skb_pull_len _ _ hfl, hl, List.length_append]
      omega
    cases hdt : dispatch_target cfg s.g.nl_srv_msg_handler (nlmsghdr_of f) with
    | none =>
      refine (ih { s with skb := skb_pull s.skb f.length } k hfs2 hdp hlp).trans ?_
      simp [expected_trace, hdt]
    | some h =>
      simp only [invoke_pure call hpure]
      refine (ih ⟨skb_pull s.skb f.length, s.g, s.invoked ++ [(h, s.skb)]⟩ k hfs2 hdp hlp).trans ?_
      simp [expected_trace, hdt, List.append_assoc]

/-- The bytes shown by the entries of `expected_trace` are those of `expected_calls`. -/
theorem expected_trace_calls (cfg : Config) (t : List nl_srv_msg_callback) (tl : List Nat) :
    ∀ (fs : List (List Nat)) (skb : sk_buff),
      skb_data skb = fs.flatten ++ tl → skb.len = (fs.flatten ++ tl).length →
      (expected_trace cfg t skb fs).map invocation_view =
        expected_calls cfg t tl fs := by
  intro fs
  induction fs with
  | nil => intro skb _ _; rfl
  | cons f fs ih =>
    intro skb hd hl
    simp only [List.flatten_cons, List.append_assoc] at hd hl
    have hfl : f.length ≤ skb.len := by rw [hl, List.length_append]; omega
    have hdp : skb_data (skb_pull skb f.length) = fs.flatten ++ tl := by
      rw [skb_data_pull _ _ hfl, hd, List.drop_left]
    have hlp : (skb_pull skb f.length).len = (fs.flatten ++ tl).length := by
      rw [skb_pull_len _ _ hfl, hl, List.length_append]
      omega
    simp only [expected_trace, expected_calls, List.map_append, ih _ hdp hlp]
    cases dispatch_target cfg t (nlmsghdr_of f) with
    | none => rfl
    | some h => simp [invocation_view, hd, hl]

/-! ## Valid request frames -/

theorem valid_frame_target (cfg : Config) (g : nlink_state) (f : List Nat)
    (hv : valid_request_frame cfg g f) :
    well_framed f ∧ has_slot cfg g.nl_srv_msg_handler (nlmsghdr_of f) ∧
      dispatch_target cfg g.nl_srv_msg_handler (nlmsghdr_of f) =
        some (registered_handler cfg g f) := by
  obtain ⟨hlen, h4, hmin, hreq, hlo, hhi, hreg⟩ := hv
  have hlt : (nlmsghdr_of f).nlmsg_len < 2 ^ 32 := rd32_lt f 0
  rw [NLMSG_LENGTH_eq] at hmin
  have hrd : table_read g.nl_srv_msg_handler
      (((nlmsghdr_of f).nlmsg_type : Int) - cfg.WLAN_NL_MSG_BASE) =
      some (registered_handler cfg g f) := by
    unfold registered_handler at hreg ⊢
    cases hr : table_read g.nl_srv_msg_handler
        (((nlmsghdr_of f).nlmsg_type : Int) - cfg.WLAN_NL_MSG_BASE) with
    | none => rw [hr] at hreg; exact absurd rfl hreg
    | some h => rfl
  refine ⟨⟨?_, ?_⟩, ?_, ?_⟩
  · unfold sizeof_nlmsghdr; omega
  · rw [NLMSG_ALIGN_of_aligned _ h4 hlt, hlen]
  · exact fun _ _ _ _ => ⟨_, hrd⟩
  · unfold dispatch_target
    rw [if_neg hreq, if_neg (by omega), if_neg (by rw [NLMSG_LENGTH_eq]; omega), hrd]
    dsimp only
    rw [if_pos hreg]

theorem expected_calls_valid (cfg : Config) (g : nlink_state) (tl : List Nat) :
    ∀ (fs : List (List Nat)), (∀ f ∈ fs, valid_request_frame cfg g f) →
      (expected_calls cfg g.nl_srv_msg_handler tl fs).length = fs.length ∧
      ∀ i, i < fs.length →
        (expected_calls cfg g.nl_srv_msg_handler tl fs)[i]? =
          some (registered_handler cfg g (fs.getD i []), (fs.drop i).flatten ++ tl) := by
  intro fs
  induction fs with
  | nil => intro _; exact ⟨rfl, fun i hi => absurd hi (Nat.not_lt_zero i)⟩
  | cons f fs ih =>
    intro hv
    obtain ⟨ihl, ihi⟩ := ih (fun x hx => hv x (List.mem_cons_of_mem _ hx))
    have ht := (valid_frame_target cfg g f (hv f (List.mem_cons_self _ _))).2.2
    simp only [expected_calls, ht, List.singleton_append, List.length_cons, ihl, true_and]
    intro i hi
    cases i with
    | zero => simp
    | succ j =>
      simp only [List.getElem?_cons_succ, List.getD_cons_succ, List.drop_succ_cons]
      exact ihi j (by omega)

/-! ## Reads and writes of the table -/

theorem table_write_in_range (cfg : Config) (t : List nl_srv_msg_callback) (ty : Int)
    (v : nl_srv_msg_callback)
    (ht : cfg.WLAN_NL_MSG_MAX - cfg.WLAN_NL_MSG_BASE ≤ t.length)
    (h1 : cfg.WLAN_NL_MSG_BASE ≤ ty) (h2 : ty < cfg.WLAN_NL_MSG_MAX) :
    table_write t (ty - cfg.WLAN_NL_MSG_BASE) v =
      some (t.set (ty - cfg.WLAN_NL_MSG_BASE).toNat v) := by
  unfold table_write
  rw [if_pos ⟨by omega, by omega⟩]

theorem table_read_set_same (t : List nl_srv_msg_callback) (i : Int) (v : nl_srv_msg_callback)
    (h0 : 0 ≤ i) (hlt : i.toNat < t.length) :
    table_read (t.set i.toNat v) i = some v := by
  unfold table_read
  rw [if_pos h0, List.getElem?_set_self hlt]

theorem table_read_set_other (t : List nl_srv_msg_callback) (i j : Int)
    (v : nl_srv_msg_callback) (h0 : 0 ≤ i) (hne : j ≠ i) :
    table_read (t.set i.toNat v) j = table_read t j := by
  unfold table_read
  by_cases hj : 0 ≤ j
  · rw [if_pos hj, if_pos hj, List.getElem?_set_ne (by omega)]
  · rw [if_neg hj, if_neg hj]

/-! ## Invariants of the invocations -/

theorem nl_srv_rcv_msg_invoked (cfg : Config) (call : callback_sem) (s : rcv_state)
    (nlh : nlmsghdr) :
    (nl_srv_rcv_msg cfg call s nlh).2.invoked = s.invoked ∨
    ∃ h, dispatch_target cfg s.g.nl_srv_msg_handler nlh = some h ∧
      (nl_srv_rcv_msg cfg call s nlh).2.invoked = s.invoked ++ [(h, s.skb)] := by
  unfold nl_srv_rcv_msg dispatch_target
  by_cases h1 : nlh.nlmsg_flags &&& NLM_F_REQUEST = 0
  · left; simp only [h1, if_true]
  · simp only [h1, if_false]
    by_cases h2 : (nlh.nlmsg_type : Int) < cfg.WLAN_NL_MSG_BASE ∨
        (nlh.nlmsg_type : Int) ≥ cfg.WLAN_NL_MSG_MAX
    · left; simp only [h2, if_true]
    · simp only [h2, if_false]
      by_cases h3 : nlh.nlmsg_len < NLMSG_LENGTH cfg.sizeof_tAniMsgHdr
      · left; simp only [h3, if_true]
      · simp only [h3, if_false]
        cases hr : table_read s.g.nl_srv_msg_handler
            ((nlh.nlmsg_type : Int) - cfg.WLAN_NL_MSG_BASE) with
        | none => left; rfl
        | some h =>
          dsimp only
          by_cases h4 : h ≠ NULL
          · right
            rw [if_pos h4, if_pos h4]
            exact ⟨h, rfl, rfl⟩
          · left
            rw [if_neg h4]

/-- A property of the invocations that each dispatch establishes holds of every invocation a
run records, whatever the handlers do and whether or not the run comes to an end. -/
theorem nl_srv_rcv_skb_invariant (cfg : Config) (call : callback_sem)
    (P : nl_srv_msg_callback × sk_buff → Prop)
    (hP : ∀ (s : rcv_state) (h : nl_srv_msg_callback),
      NLMSG_SPACE 0 ≤ s.skb.len →
      sizeof_nlmsghdr ≤ (nlmsghdr_of (skb_data s.skb)).nlmsg_len →
      (nlmsghdr_of (skb_data s.skb)).nlmsg_len ≤ s.skb.len →
      dispatch_target cfg s.g.nl_srv_msg_handler (nlmsghdr_of (skb_data s.skb)) = some h →
      P (h, s.skb)) :
    ∀ (fuel : Nat) (s : rcv_state), (∀ e ∈ s.invoked, P e) →
      ∀ e ∈ (nl_srv_rcv_skb cfg call fuel s).2.invoked, P e := by
  intro fuel
  induction fuel with
  | zero => intro s hs; exact hs
  | succ n ih =>
    intro s hs
    rw [nl_srv_rcv_skb]
    by_cases hc : s.skb.len ≥ NLMSG_SPACE 0
    · rw [if_pos hc]
      dsimp only
      by_cases hb : (nlmsghdr_of (skb_data s.skb)).nlmsg_len < sizeof_nlmsghdr ∨
          s.skb.len < (nlmsghdr_of (skb_data s.skb)).nlmsg_len
      · rw [if_pos hb]; exact hs
      · rw [if_neg hb]
        have hs1 : ∀ e ∈ (nl_srv_rcv_msg cfg call s (nlmsghdr_of (skb_data s.skb))).2.invoked,
            P e := by
          intro e he
          rcases nl_srv_rcv_msg_invoked cfg call s (nlmsghdr_of (skb_data s.skb)) with
            h | ⟨h, ht, hi⟩
          · rw [h] at he; exact hs e he
          · rw [hi, List.mem_append, List.mem_singleton] at he
            rcases he with he | he
            · exact hs e he
            · rw [he]; exact hP s h hc (by omega) (by omega) ht
        generalize nl_srv_rcv_msg cfg call s (nlmsghdr_of (skb_data s.skb)) = r at hs1
        obtain ⟨o, s1⟩ := r
        cases o with
        | returned => exact ih _ hs1
        | out_of_bounds => exact hs1
        | out_of_fuel => exact hs1
    · rw [if_neg hc]; exact hs

theorem dispatch_target_request (cfg : Config) (t : List nl_srv_msg_callback) (nlh : nlmsghdr)
    (h : nl_srv_msg_callback) (ht : dispatch_target cfg t nlh = some h) :
    nlh.nlmsg_flags &&& NLM_F_REQUEST ≠ 0 := by
  intro h0
  unfold dispatch_target at ht
  rw [if_pos h0] at ht
  exact absurd ht (by simp)

theorem dispatch_target_cleared (cfg : Config) (t : List nl_srv_msg_callback) (nlh : nlmsghdr)
    (h0 : nlh.nlmsg_flags &&& NLM_F_REQUEST = 0) : dispatch_target cfg t nlh = none := by
  unfold dispatch_target
  rw [if_pos h0]

/-! ## The run depends on the buffer only through the bytes at the cursor -/

theorem nl_srv_rcv_msg_relocate (cfg : Config) (call : callback_sem)
    (hpure : ∀ h skb g, call h skb g = (skb, g)) (s t : rcv_state) (nlh : nlmsghdr)
    (hg : s.g = t.g) :
    (nl_srv_rcv_msg cfg call s nlh).1 = (nl_srv_rcv_msg cfg call t nlh).1 ∧
    ∃ l : List nl_srv_msg_callback,
      (nl_srv_rcv_msg cfg call s nlh).2 =
        { s with invoked := s.invoked ++ l.map (fun h => (h, s.skb)) } ∧
      (nl_srv_rcv_msg cfg call t nlh).2 =
        { t with invoked := t.invoked ++ l.map (fun h => (h, t.skb)) } := by
  obtain ⟨tskb, tg, tinv⟩ := t
  dsimp only at hg
  subst hg
  unfold nl_srv_rcv_msg
  by_cases h1 : nlh.nlmsg_flags &&& NLM_F_REQUEST = 0
  · simp only [if_pos h1]
    exact ⟨trivial, [], by simp, by simp⟩
  · simp only [if_neg h1]
    by_cases h2 : (nlh.nlmsg_type : Int) < cfg.WLAN_NL_MSG_BASE ∨
        (nlh.nlmsg_type : Int) ≥ cfg.WLAN_NL_MSG_MAX
    · simp only [if_pos h2]
      exact ⟨trivial, [], by simp, by simp⟩
    · simp only [if_neg h2]
      by_cases h3 : nlh.nlmsg_len < NLMSG_LENGTH cfg.sizeof_tAniMsgHdr
      · simp only [if_pos h3]
        exact ⟨trivial, [], by simp, by simp⟩
      · simp only [if_neg h3]
        cases hr : table_read s.g.nl_srv_msg_handler
            ((nlh.nlmsg_type : Int) - cfg.WLAN_NL_MSG_BASE) with
        | none => exact ⟨rfl, [], by simp, by simp⟩
        | some h =>
          dsimp only
          by_cases h4 : h ≠ NULL
          · simp only [if_pos h4]
            exact ⟨trivial, [h], by simp [invoke_pure call hpure],
              by simp [invoke_pure call hpure]⟩
          · simp only [if_neg h4]
            exact ⟨trivial, [], by simp, by simp⟩

theorem skb_pull_relocate (a b : sk_buff) (n : Nat) (hd : skb_data a = skb_data b)
    (hl : a.len = b.len) :
    skb_data (skb_pull a n) = skb_data (skb_pull b n) ∧ (skb_pull a n).len = (skb_pull b n).len := by
  by_cases hn : n ≤ a.len
  · rw [skb_data_pull a n hn, skb_data_pull b n (by omega), skb_pull_len a n hn,
      skb_pull_len b n (by omega), hd, hl]
    exact ⟨rfl, rfl⟩
  · unfold skb_pull
    rw [if_pos (by omega), if_pos (by omega)]
    exact ⟨hd, hl⟩

/-- Two runs with handlers that change nothing, started on buffers that show the same bytes
at the cursor, with the same globals: they end the same way and make the same invocations. -/
theorem nl_srv_rcv_skb_relocate (cfg : Config) (call : callback_sem)
    (hpure : ∀ h skb g, call h skb g = (skb, g)) :
    ∀ (fuel : Nat) (s t : rcv_state),
      skb_data s.skb = skb_data t.skb → s.skb.len = t.skb.len → s.g = t.g →
      s.invoked.map invocation_view = t.invoked.map invocation_view →
      (nl_srv_rcv_skb cfg call fuel s).1 = (nl_srv_rcv_skb cfg call fuel t).1 ∧
      calls_of (nl_srv_rcv_skb cfg call fuel s) = calls_of (nl_srv_rcv_skb cfg call fuel t) := by
  intro fuel
  induction fuel with
  | zero => intro s t _ _ _ hi; exact ⟨rfl, hi⟩
  | succ n ih =>
    intro s t hd hl hg hi
    rw [nl_srv_rcv_skb, nl_srv_rcv_skb]
    rw [← hd, ← hl]
    by_cases hc : s.skb.len ≥ NLMSG_SPACE 0
    · rw [if_pos hc, if_pos hc]
      dsimp only
      by_cases hb : (nlmsghdr_of (skb_data s.skb)).nlmsg_len < sizeof_nlmsghdr ∨
          s.skb.len < (nlmsghdr_of (skb_data s.skb)).nlmsg_len
      · rw [if_pos hb, if_pos hb]; exact ⟨rfl, hi⟩
      · rw [if_neg hb, if_neg hb]
        obtain ⟨ho, l, hs1, ht1⟩ := nl_srv_rcv_msg_relocate cfg call hpure s t
          (nlmsghdr_of (skb_data s.skb)) hg
        have hview : ∀ h, invocation_view (h, s.skb) = invocation_view (h, t.skb) := by
          intro h; simp [invocation_view, hd, hl]
        have hinv : (s.invoked ++ l.map (fun h => (h, s.skb))).map invocation_view =
            (t.invoked ++ l.map (fun h => (h, t.skb))).map invocation_view := by
          simp only [List.map_append, List.map_map, hi]
          congr 1
          apply List.map_congr_left
          intro h _
          exact hview h
        generalize nl_srv_rcv_msg cfg call s (nlmsghdr_of (skb_data s.skb)) = r at ho hs1
        generalize nl_srv_rcv_msg cfg call t (nlmsghdr_of (skb_data s.skb)) = r2 at ho ht1
        obtain ⟨o, s1⟩ := r
        obtain ⟨o2, t1⟩ := r2
        simp only at ho hs1 ht1
        subst ho hs1 ht1
        cases o with
        | returned =>
          dsimp only
          exact ih _ _ (skb_pull_relocate _ _ _ hd hl).1 (skb_pull_relocate _ _ _ hd hl).2 hg hinv
        | out_of_bounds => exact ⟨rfl, hinv⟩
        | out_of_fuel => exact ⟨rfl, hinv⟩
    · rw [if_neg hc, if_neg hc]; exact ⟨rfl, hi⟩

theorem dispatch_target_bad_type (cfg : Config) (t : List nl_srv_msg_callback) (nlh : nlmsghdr)
    (hout : (nlh.nlmsg_type : Int) < cfg.WLAN_NL_MSG_BASE ∨
      (nlh.nlmsg_type : Int) ≥ cfg.WLAN_NL_MSG_MAX) : dispatch_target cfg t nlh = none := by
  unfold dispatch_target
  by_cases h1 : nlh.nlmsg_flags &&& NLM_F_REQUEST = 0
  · rw [if_pos h1]
  · rw [if_neg h1, if_pos hout]

/-- The calls of a run over well-framed frames followed by fewer than 16 bytes, for handlers
that change nothing: those of `expected_calls`. -/
theorem nl_srv_rcv_skb_calls (cfg : Config) (call : callback_sem)
    (hpure : ∀ h skb g, call h skb g = (skb, g)) (g : nlink_state) (tl : List Nat)
    (htl : tl.length < 16) (fs : List (List Nat)) (k : Nat)
    (hfs : ∀ f ∈ fs, well_framed f ∧ has_slot cfg g.nl_srv_msg_handler (nlmsghdr_of f)) :
    (nl_srv_rcv_skb cfg call (fs.length + 1 + k) (rcv_start g (fs.flatten ++ tl))).1 =
      Outcome.returned ∧
    calls_of (nl_srv_rcv_skb cfg call (fs.length + 1 + k) (rcv_start g (fs.flatten ++ tl))) =
      expected_calls cfg g.nl_srv_msg_handler tl fs := by
  have hd : skb_data (rcv_start g (fs.flatten ++ tl)).skb = fs.flatten ++ tl := by
    simp [rcv_start, skb_of_bytes, skb_data]
  have hl : (rcv_start g (fs.flatten ++ tl)).skb.len = (fs.flatten ++ tl).length := by
    simp [rcv_start, skb_of_bytes]
  have hrun := nl_srv_rcv_skb_frames cfg call hpure tl htl fs
    (rcv_start g (fs.flatten ++ tl)) k hfs hd hl
  have hcalls := expected_trace_calls cfg g.nl_srv_msg_handler tl fs
    (rcv_start g (fs.flatten ++ tl)).skb hd hl
  rw [hrun]
  refine ⟨rfl, ?_⟩
  unfold calls_of
  simp only [rcv_start, List.nil_append] at hcalls ⊢
  exact hcalls

theorem dispatch_target_some (cfg : Config) (t : List nl_srv_msg_callback) (nlh : nlmsghdr)
    (h : nl_srv_msg_callback) (hreq : nlh.nlmsg_flags &&& NLM_F_REQUEST ≠ 0)
    (hlo : cfg.WLAN_NL_MSG_BASE ≤ (nlh.nlmsg_type : Int))
    (hhi : (nlh.nlmsg_type : Int) < cfg.WLAN_NL_MSG_MAX)
    (hlen : NLMSG_LENGTH cfg.sizeof_tAniMsgHdr ≤ nlh.nlmsg_len)
    (hr : table_read t ((nlh.nlmsg_type : Int) - cfg.WLAN_NL_MSG_BASE) = some h)
    (hn : h ≠ NULL) : dispatch_target cfg t nlh = some h := by
  unfold dispatch_target
  rw [if_neg hreq, if_neg (by omega), if_neg (by omega), hr]
  dsimp only
  rw [if_pos hn]

theorem dispatch_target_short (cfg : Config) (t : List nl_srv_msg_callback) (nlh : nlmsghdr)
    (hlen : nlh.nlmsg_len < NLMSG_LENGTH cfg.sizeof_tAniMsgHdr) :
    dispatch_target cfg t nlh = none := by
  unfold dispatch_target
  by_cases h1 : nlh.nlmsg_flags &&& NLM_F_REQUEST = 0
  · rw [if_pos h1]
  · rw [if_neg h1]
    by_cases h2 : (nlh.nlmsg_type : Int) < cfg.WLAN_NL_MSG_BASE ∨
        (nlh.nlmsg_type : Int) ≥ cfg.WLAN_NL_MSG_MAX
    · rw [if_pos h2]
    · rw [if_neg h2, if_pos hlen]

/-! ## Ownership of the forwarded buffer -/

/-- Without `CNSS_GENL` every call releases the buffer exactly once: it is handed to the
transport when the endpoint is there and freed when it is not. -/
theorem Direct_releases_once (cfg : Config) (env : Collaborators) (g : nlink_state)
    (skb : sk_buff) (dst_pid flag : Int) :
    releases (Direct.nl_srv_ucast env g skb dst_pid flag).2 = 1 ∧
    releases (Direct.nl_srv_bcast cfg env g skb).2 = 1 := by
  unfold Direct.nl_srv_ucast Direct.nl_srv_bcast
  cases g.nl_srv_sock <;> exact ⟨rfl, rfl⟩

theorem cld80211_fill_data_releases (env : Collaborators) (portid : Nat) (seq : Nat)
    (flags : Int) (cmd : Nat) (buf : List Nat) (len : Int) :
    releases (CnssGenl.cld80211_fill_data env portid seq flags cmd buf len).2 = 0 := by
  unfold CnssGenl.cld80211_fill_data
  split_ifs <;> rfl

theorem send_msg_to_cld80211_releases (env : Collaborators) (cld_mcgroup_id pid app_id : Int)
    (buf : List Nat) (len : Int) :
    releases (CnssGenl.send_msg_to_cld80211 env cld_mcgroup_id pid app_id buf len).2 = 0 := by
  have h := cld80211_fill_data_releases env (to_uint32 pid) 0 0 (to_uint8 app_id) buf len
  unfold releases at h ⊢
  unfold CnssGenl.send_msg_to_cld80211
  dsimp only
  split_ifs <;>
    simp [List.countP_append, List.countP_cons, Effect.releases_skb, h]

/-- With `CNSS_GENL` a call that returns 0 releases the buffer exactly once, and a call that
returns an error does not release it at all. -/
theorem CnssGenl_releases (env : Collaborators) (skb : sk_buff)
    (dst_pid flag app_id mcgroup_id : Int) :
    releases (CnssGenl.nl_srv_bcast env skb mcgroup_id app_id).2 =
      (if (CnssGenl.nl_srv_bcast env skb mcgroup_id app_id).1 = 0 then 1 else 0) ∧
    releases (CnssGenl.nl_srv_ucast env skb dst_pid flag app_id mcgroup_id).2 =
      (if (CnssGenl.nl_srv_ucast env skb dst_pid flag app_id mcgroup_id).1 = 0 then 1 else 0) := by
  have h1 := send_msg_to_cld80211_releases env mcgroup_id 0 app_id
    (CnssGenl.payload_of skb).1 (to_int32 (CnssGenl.payload_of skb).2)
  have h2 := send_msg_to_cld80211_releases env mcgroup_id dst_pid app_id
    (CnssGenl.payload_of skb).1 (to_int32 (CnssGenl.payload_of skb).2)
  unfold releases at h1 h2 ⊢
  unfold CnssGenl.nl_srv_bcast CnssGenl.nl_srv_ucast
  dsimp only
  constructor
  · split_ifs with ha hb hb
    · exact absurd (show (-EPERM : Int) = 0 from hb) (by decide)
    · simp [List.countP_append, List.countP_cons, Effect.releases_skb, h1]
    · simp [List.countP_append, List.countP_cons, Effect.releases_skb, h1]
    · exact absurd rfl hb
  · split_ifs with ha hb hb
    · exact absurd (show (-EPERM : Int) = 0 from hb) (by decide)
    · simp [List.countP_append, List.countP_cons, Effect.releases_skb, h2]
    · simp [List.countP_append, List.countP_cons, Effect.releases_skb, h2]
    · exact absurd rfl hb

/-! ## How the loop ends -/

/-- A run that returns ends either with fewer than `NLMSG_SPACE(0)` bytes at the cursor or on
a header that fails the check of line 438. -/
theorem nl_srv_rcv_skb_returned_end (cfg : Config) (call : callback_sem) :
    ∀ (fuel : Nat) (s t : rcv_state),
      nl_srv_rcv_skb cfg call fuel s = (Outcome.returned, t) →
      t.skb.len < NLMSG_SPACE 0 ∨
      ((nlmsghdr_of (skb_data t.skb)).nlmsg_len < sizeof_nlmsghdr ∨
        t.skb.len < (nlmsghdr_of (skb_data t.skb)).nlmsg_len) := by
  intro fuel
  induction fuel with
  | zero =>
    intro s t h
    rw [nl_srv_rcv_skb] at h
    exact absurd (show Outcome.out_of_fuel = Outcome.returned from congrArg Prod.fst h)
      (by decide)
  | succ n ih =>
    intro s t h
    rw [nl_srv_rcv_skb] at h
    by_cases hc : s.skb.len ≥ NLMSG_SPACE 0
    · rw [if_pos hc] at h
      dsimp only at h
      by_cases hb : (nlmsghdr_of (skb_data s.skb)).nlmsg_len < sizeof_nlmsghdr ∨
          s.skb.len < (nlmsghdr_of (skb_data s.skb)).nlmsg_len
      · rw [if_pos hb] at h
        have e : s = t := congrArg Prod.snd h
        rw [← e]; exact Or.inr hb
      · rw [if_neg hb] at h
        generalize nl_srv_rcv_msg cfg call s (nlmsghdr_of (skb_data s.skb)) = r at h
        obtain ⟨o, s1⟩ := r
        cases o with
        | returned => exact ih _ t h
        | out_of_bounds =>
          exact absurd (show Outcome.out_of_bounds = Outcome.returned from congrArg Prod.fst h)
            (by decide)
        | out_of_fuel =>
          exact absurd (show Outcome.out_of_fuel = Outcome.returned from congrArg Prod.fst h)
            (by decide)
    · rw [if_neg hc] at h
      have e : s = t := congrArg Prod.snd h
      rw [← e]; exact Or.inl (by omega)

theorem nl_srv_rcv_skb_short (cfg : Config) (call : callback_sem) (fuel : Nat) (s : rcv_state)
    (hshort : s.skb.len < NLMSG_SPACE 0) :
    nl_srv_rcv_skb cfg call (fuel + 1) s = (Outcome.returned, s) := by
  rw [nl_srv_rcv_skb, if_neg (by omega)]

theorem nl_srv_rcv_msg_short (cfg : Config) (call : callback_sem) (s : rcv_state)
    (nlh : nlmsghdr) (hshort : nlh.nlmsg_len < NLMSG_LENGTH cfg.sizeof_tAniMsgHdr) :
    nl_srv_rcv_msg cfg call s nlh = (Outcome.returned, s) := by
  unfold nl_srv_rcv_msg
  by_cases h1 : nlh.nlmsg_flags &&& NLM_F_REQUEST = 0
  · rw [if_pos h1]
  · rw [if_neg h1]
    dsimp only
    by_cases h2 : (nlh.nlmsg_type : Int) < cfg.WLAN_NL_MSG_BASE ∨
        (nlh.nlmsg_type : Int) ≥ cfg.WLAN_NL_MSG_MAX
    · rw [if_pos h2]
    · rw [if_neg h2, if_pos hshort]

/-! ## Termination of the loop -/

/-- The three ways `nl_srv_rcv_msg` ends: the frame is dropped, the table is read outside the
array, or the dispatch target is invoked. -/
theorem nl_srv_rcv_msg_cases (cfg : Config) (call : callback_sem) (s : rcv_state)
    (nlh : nlmsghdr) :
    nl_srv_rcv_msg cfg call s nlh = (Outcome.returned, s) ∨
    nl_srv_rcv_msg cfg call s nlh = (Outcome.out_of_bounds, s) ∨
    ∃ h, dispatch_target cfg s.g.nl_srv_msg_handler nlh = some h ∧
      nl_srv_rcv_msg cfg call s nlh = (Outcome.returned, invoke call h s) := by
  unfold nl_srv_rcv_msg dispatch_target
  by_cases h1 : nlh.nlmsg_flags &&& NLM_F_REQUEST = 0
  · left; simp only [h1, if_true]
  · simp only [h1, if_false]
    by_cases h2 : (nlh.nlmsg_type : Int) < cfg.WLAN_NL_MSG_BASE ∨
        (nlh.nlmsg_type : Int) ≥ cfg.WLAN_NL_MSG_MAX
    · left; simp only [h2, if_true]
    · simp only [h2, if_false]
      by_cases h3 : nlh.nlmsg_len < NLMSG_LENGTH cfg.sizeof_tAniMsgHdr
      · left; simp only [h3, if_true]
      · simp only [h3, if_false]
        cases hr : table_read s.g.nl_srv_msg_handler
            ((nlh.nlmsg_type : Int) - cfg.WLAN_NL_MSG_BASE) with
        | none => right; left; rfl
        | some h =>
          dsimp only
          by_cases h4 : h ≠ NULL
          · right; right
            rw [if_pos h4, if_pos h4]
            exact ⟨h, rfl, rfl⟩
          · left
            rw [if_neg h4]

theorem nl_srv_rcv_msg_not_out_of_fuel (cfg : Config) (call : callback_sem) (s : rcv_state)
    (nlh : nlmsghdr) : (nl_srv_rcv_msg cfg call s nlh).1 ≠ Outcome.out_of_fuel := by
  rcases nl_srv_rcv_msg_cases cfg call s nlh with h | h | ⟨_, _, h⟩ <;> rw [h] <;>
    intro hc <;> cases hc

theorem nl_srv_rcv_msg_len_le (cfg : Config) (call : callback_sem)
    (hnogrow : ∀ h skb g, (call h skb g).1.len ≤ skb.len) (s : rcv_state) (nlh : nlmsghdr) :
    (nl_srv_rcv_msg cfg call s nlh).2.skb.len ≤ s.skb.len := by
  rcases nl_srv_rcv_msg_cases cfg call s nlh with h | h | ⟨x, _, h⟩
  · rw [h]
  · rw [h]
  · rw [h]; exact hnogrow x s.skb s.g

/-- Short of the 32-bit boundary the advance of a well-formed iteration is at least a header
and at most what remains. -/
theorem advance_bounds (nlen L : Nat) (hlo : 16 ≤ nlen) (hhi : nlen ≤ L)
    (hL : L < 2 ^ 32 - 3) :
    16 ≤ (if NLMSG_ALIGN nlen > L then L else NLMSG_ALIGN nlen) ∧
    (if NLMSG_ALIGN nlen > L then L else NLMSG_ALIGN nlen) ≤ L := by
  have hA : NLMSG_ALIGN nlen = (nlen + 3) / 4 * 4 := by
    rw [NLMSG_ALIGN_eq, Nat.mod_eq_of_lt (by omega)]
  rw [hA]
  split_ifs <;> omega

theorem NLMSG_ALIGN_wraps (n : Nat) (hlo : 2 ^ 32 - 3 ≤ n) (hhi : n < 2 ^ 32) :
    NLMSG_ALIGN n = 0 := by
  rw [NLMSG_ALIGN_eq]
  omega

theorem skb_pull_zero (skb : sk_buff) : skb_pull skb 0 = skb := by
  unfold skb_pull
  rw [if_neg (by omega)]
  rfl

theorem nl_srv_rcv_skb_terminates (cfg : Config) (call : callback_sem)
    (hnogrow : ∀ h skb g, (call h skb g).1.len ≤ skb.len) :
    ∀ (fuel : Nat) (s : rcv_state), s.skb.len < 2 ^ 32 - 3 → s.skb.len < fuel →
      (nl_srv_rcv_skb cfg call fuel s).1 ≠ Outcome.out_of_fuel := by
  intro fuel
  induction fuel with
  | zero => intro s _ h; exact absurd h (Nat.not_lt_zero _)
  | succ n ih =>
    intro s hL hfuel
    rw [nl_srv_rcv_skb]
    by_cases hc : s.skb.len ≥ NLMSG_SPACE 0
    · rw [if_pos hc]
      dsimp only
      by_cases hb : (nlmsghdr_of (skb_data s.skb)).nlmsg_len < sizeof_nlmsghdr ∨
          s.skb.len < (nlmsghdr_of (skb_data s.skb)).nlmsg_len
      · rw [if_pos hb]; intro hc; cases hc
      · rw [if_neg hb]
        unfold sizeof_nlmsghdr at hb
        obtain ⟨h16, hle⟩ := advance_bounds (nlmsghdr_of (skb_data s.skb)).nlmsg_len s.skb.len
          (by omega) (by omega) hL
        have hne := nl_srv_rcv_msg_not_out_of_fuel cfg call s (nlmsghdr_of (skb_data s.skb))
        have hlen := nl_srv_rcv_msg_len_le cfg call hnogrow s (nlmsghdr_of (skb_data s.skb))
        generalize nl_srv_rcv_msg cfg call s (nlmsghdr_of (skb_data s.skb)) = r at hne hlen
        generalize (if NLMSG_ALIGN (nlmsghdr_of (skb_data s.skb)).nlmsg_len > s.skb.len
          then s.skb.len else NLMSG_ALIGN (nlmsghdr_of (skb_data s.skb)).nlmsg_len) = rlen
          at h16 hle
        obtain ⟨o, s1⟩ := r
        cases o with
        | returned =>
          dsimp only at hlen ⊢
          have hdec : (skb_pull s1.skb rlen).len < s.skb.len := by
            unfold skb_pull
            by_cases hp : rlen > s1.skb.len
            · rw [if_pos hp]; omega
            · rw [if_neg hp]; dsimp only; omega
          exact ih _ (by dsimp only; omega) (by dsimp only; omega)
        | out_of_bounds => intro hc; cases hc
        | out_of_fuel => exact absurd rfl hne
    · rw [if_neg hc]; intro hx; cases hx
/-! ## Accesses to the table -/

theorem nl_srv_rcv_msg_in_bounds (cfg : Config) (call : callback_sem) (s : rcv_state)
    (nlh : nlmsghdr)
    (ht : cfg.WLAN_NL_MSG_MAX - cfg.WLAN_NL_MSG_BASE ≤ s.g.nl_srv_msg_handler.length) :
    (nl_srv_rcv_msg cfg call s nlh).1 = Outcome.returned := by
  rw [nl_srv_rcv_msg_eq cfg call s nlh (has_slot_of_size cfg _ nlh ht)]

theorem nl_srv_rcv_msg_table_length (cfg : Config) (call : callback_sem)
    (hsize : ∀ h skb g,
      (call h skb g).2.nl_srv_msg_handler.length = g.nl_srv_msg_handler.length)
    (s : rcv_state) (nlh : nlmsghdr) :
    (nl_srv_rcv_msg cfg call s nlh).2.g.nl_srv_msg_handler.length =
      s.g.nl_srv_msg_handler.length := by
  rcases nl_srv_rcv_msg_cases cfg call s nlh with h | h | ⟨x, _, h⟩
  · rw [h]
  · rw [h]
  · rw [h]; exact hsize x s.skb s.g

theorem nl_srv_rcv_skb_in_bounds (cfg : Config) (call : callback_sem)
    (hsize : ∀ h skb g,
      (call h skb g).2.nl_srv_msg_handler.length = g.nl_srv_msg_handler.length) :
    ∀ (fuel : Nat) (s : rcv_state),
      cfg.WLAN_NL_MSG_MAX - cfg.WLAN_NL_MSG_BASE ≤ s.g.nl_srv_msg_handler.length →
      (nl_srv_rcv_skb cfg call fuel s).1 ≠ Outcome.out_of_bounds := by
  intro fuel
  induction fuel with
  | zero => intro s _ hc; cases hc
  | succ n ih =>
    intro s ht
    rw [nl_srv_rcv_skb]
    by_cases hc : s.skb.len ≥ NLMSG_SPACE 0
    · rw [if_pos hc]
      dsimp only
      by_cases hb : (nlmsghdr_of (skb_data s.skb)).nlmsg_len < sizeof_nlmsghdr ∨
          s.skb.len < (nlmsghdr_of (skb_data s.skb)).nlmsg_len
      · rw [if_pos hb]; intro hx; cases hx
      · rw [if_neg hb]
        have hret := nl_srv_rcv_msg_in_bounds cfg call s (nlmsghdr_of (skb_data s.skb)) ht
        have hlen := nl_srv_rcv_msg_table_length cfg call hsize s
          (nlmsghdr_of (skb_data s.skb))
        generalize nl_srv_rcv_msg cfg call s (nlmsghdr_of (skb_data s.skb)) = r at hret hlen
        obtain ⟨o, s1⟩ := r
        dsimp only at hret hlen
        subst hret
        dsimp only
        exact ih _ (by dsimp only; rw [hlen]; exact ht)
    · rw [if_neg hc]; intro hx; cases hx

/-! ## What holds at every invocation -/

theorem dispatch_target_facts (cfg : Config) (t : List nl_srv_msg_callback) (nlh : nlmsghdr)
    (h : nl_srv_msg_callback) (ht : dispatch_target cfg t nlh = some h) :
    nlh.nlmsg_flags &&& NLM_F_REQUEST ≠ 0 ∧
    cfg.WLAN_NL_MSG_BASE ≤ (nlh.nlmsg_type : Int) ∧
    (nlh.nlmsg_type : Int) < cfg.WLAN_NL_MSG_MAX ∧
    NLMSG_LENGTH cfg.sizeof_tAniMsgHdr ≤ nlh.nlmsg_len ∧
    h ≠ NULL ∧
    table_read t ((nlh.nlmsg_type : Int) - cfg.WLAN_NL_MSG_BASE) = some h := by
  unfold dispatch_target at ht
  by_cases h1 : nlh.nlmsg_flags &&& NLM_F_REQUEST = 0
  · rw [if_pos h1] at ht; cases ht
  · rw [if_neg h1] at ht
    by_cases h2 : (nlh.nlmsg_type : Int) < cfg.WLAN_NL_MSG_BASE ∨
        (nlh.nlmsg_type : Int) ≥ cfg.WLAN_NL_MSG_MAX
    · rw [if_pos h2] at ht; cases ht
    · rw [if_neg h2] at ht
      by_cases h3 : nlh.nlmsg_len < NLMSG_LENGTH cfg.sizeof_tAniMsgHdr
      · rw [if_pos h3] at ht; cases ht
      · rw [if_neg h3] at ht
        cases hr : table_read t ((nlh.nlmsg_type : Int) - cfg.WLAN_NL_MSG_BASE) with
        | none => rw [hr] at ht; cases ht
        | some x =>
          rw [hr] at ht
          dsimp only at ht
          by_cases h4 : x ≠ NULL
          · rw [if_pos h4] at ht
            have hx : x = h := Option.some.inj ht
            subst hx
            exact ⟨h1, by omega, by omega, by omega, h4, rfl⟩
          · rw [if_neg h4] at ht; cases ht

/-- A property of buffers that handlers and `skb_pull` preserve holds of the buffer passed at
every invocation of a run that starts from a buffer with the property. -/
theorem nl_srv_rcv_skb_invariant_skb (cfg : Config) (call : callback_sem)
    (I : sk_buff → Prop)
    (hcall : ∀ h skb g, I skb → I (call h skb g).1)
    (hpull : ∀ skb n, I skb → I (skb_pull skb n)) :
    ∀ (fuel : Nat) (s : rcv_state), I s.skb → (∀ e ∈ s.invoked, I e.2) →
      ∀ e ∈ (nl_srv_rcv_skb cfg call fuel s).2.invoked, I e.2 := by
  intro fuel
  induction fuel with
  | zero => intro s _ hs; exact hs
  | succ n ih =>
    intro s hI hs
    rw [nl_srv_rcv_skb]
    by_cases hc : s.skb.len ≥ NLMSG_SPACE 0
    · rw [if_pos hc]
      dsimp only
      by_cases hb : (nlmsghdr_of (skb_data s.skb)).nlmsg_len < sizeof_nlmsghdr ∨
          s.skb.len < (nlmsghdr_of (skb_data s.skb)).nlmsg_len
      · rw [if_pos hb]; exact hs
      · rw [if_neg hb]
        rcases nl_srv_rcv_msg_cases cfg call s (nlmsghdr_of (skb_data s.skb)) with
          h | h | ⟨x, _, h⟩
        · rw [h]; exact ih _ (hpull _ _ hI) hs
        · rw [h]; exact hs
        · rw [h]
          refine ih _ (hpull _ _ (hcall x _ _ hI)) ?_
          intro e he
          simp only [invoke, List.mem_append, List.mem_singleton] at he
          rcases he with he | he
          · exact hs e he
          · rw [he]; exact hI
    · rw [if_neg hc]; exact hs

/-! ## One iteration of the loop -/

/-- One iteration on a header that passes the check of line 438: the frame goes to
`nl_srv_rcv_msg` with the buffer still positioned on it, and the buffer that comes back is
pulled by min(NLMSG_ALIGN(length), remaining). -/
theorem nl_srv_rcv_skb_iteration (cfg : Config) (call : callback_sem) (fuel : Nat)
    (s : rcv_state)
    (hlo : sizeof_nlmsghdr ≤ (nlmsghdr_of (skb_data s.skb)).nlmsg_len)
    (hhi : (nlmsghdr_of (skb_data s.skb)).nlmsg_len ≤ s.skb.len) :
    nl_srv_rcv_skb cfg call (fuel + 1) s =
      (match nl_srv_rcv_msg cfg call s (nlmsghdr_of (skb_data s.skb)) with
        | (Outcome.returned, s1) =>
          nl_srv_rcv_skb cfg call fuel
            ⟨skb_pull s1.skb
              (min (NLMSG_ALIGN (nlmsghdr_of (skb_data s.skb)).nlmsg_len) s.skb.len),
              s1.g, s1.invoked⟩
        | r => r) := by
  have hmin : ∀ a b : Nat, (if a > b then b else a) = min a b := by
    intro a b
    by_cases h : a > b
    · rw [if_pos h]; omega
    · rw [if_neg h]; omega
  rw [nl_srv_rcv_skb, if_pos (by rw [NLMSG_SPACE_zero]; unfold sizeof_nlmsghdr at hlo; omega)]
  dsimp only
  rw [if_neg (by omega), hmin]

/-! ## The receive dispatcher on well-formed buffers -/

/-- C1: a buffer that is the concatenation of N valid request frames (request flag set, type
in range, 4-byte-aligned declared length covering the header and a `tAniMsgHdr`, a non-null
handler stored for the type), with handlers that change neither the buffer nor the globals:
given fuel for its N + 1 loop tests, `nl_srv_rcv_skb` returns after exactly N handler
invocations, and the i-th invocation calls the handler stored for the type of the i-th frame,
with the buffer positioned on that frame. -/
theorem nl_srv_rcv_skb_dispatches_valid_frames (cfg : Config) (call : callback_sem)
    (g : nlink_state) (fs : List (List Nat)) (fuel : Nat)
    (hpure : ∀ h skb g, call h skb g = (skb, g))
    (hvalid : ∀ f ∈ fs, valid_request_frame cfg g f)
    (hfuel : fs.length < fuel) :
    (nl_srv_rcv_skb cfg call fuel (rcv_start g fs.flatten)).1 = Outcome.returned ∧
    (nl_srv_rcv_skb cfg call fuel (rcv_start g fs.flatten)).2.invoked.length = fs.length ∧
    ∀ i, i < fs.length →
      (calls_of (nl_srv_rcv_skb cfg call fuel (rcv_start g fs.flatten)))[i]? =
        some (registered_handler cfg g (fs.getD i []), (fs.drop i).flatten) := by
  obtain ⟨k, rfl⟩ : ∃ k, fuel = fs.length + 1 + k := ⟨fuel - (fs.length + 1), by omega⟩
  have hd : skb_data (rcv_start g fs.flatten).skb = fs.flatten ++ [] := by
    simp [rcv_start, skb_of_bytes, skb_data]
  have hl : (rcv_start g fs.flatten).skb.len = (fs.flatten ++ []).length := by
    simp [rcv_start, skb_of_bytes]
  have hrun := nl_srv_rcv_skb_frames cfg call hpure [] (by simp) fs (rcv_start g fs.flatten) k
    (fun f hf => ⟨(valid_frame_target cfg g f (hvalid f hf)).1,
      (valid_frame_target cfg g f (hvalid f hf)).2.1⟩) hd hl
  have hcalls := expected_trace_calls cfg g.nl_srv_msg_handler [] fs
    (rcv_start g fs.flatten).skb hd hl
  obtain ⟨hlen, hidx⟩ := expected_calls_valid cfg g [] fs hvalid
  have hinv : (nl_srv_rcv_skb cfg call (fs.length + 1 + k) (rcv_start g fs.flatten)).2.invoked =
      expected_trace cfg g.nl_srv_msg_handler (rcv_start g fs.flatten).skb fs := by
    rw [hrun]; simp [rcv_start]
  refine ⟨by rw [hrun], ?_, ?_⟩
  · rw [hinv, ← hlen, ← hcalls, List.length_map]
  · intro i hi
    unfold calls_of
    rw [hinv, hcalls, hidx i hi, List.append_nil]

/-- C1 at a buffer of two valid request frames, types `0x10` and `0x11`, with the driver's constants. -/
theorem nl_srv_rcv_skb_dispatches_valid_frames_witness :
    (∀ h skb g, pure_callbacks h skb g = (skb, g)) ∧
    (∀ f ∈ [sample_frame_a, sample_frame_b], valid_request_frame wlan_cfg sample_state f) ∧
    [sample_frame_a, sample_frame_b].length < 3 ∧
    (nl_srv_rcv_skb wlan_cfg pure_callbacks 3
      (rcv_start sample_state [sample_frame_a, sample_frame_b].flatten)).2.invoked.length = 2 :=
  ⟨fun _ _ _ => rfl, by decide, by decide,
    (nl_srv_rcv_skb_dispatches_valid_frames wlan_cfg pure_callbacks sample_state
      [sample_frame_a, sample_frame_b] 3 (fun _ _ _ => rfl) (by decide) (by decide)).2.1⟩

/-! ## The handler registry -/

/-- C2: on a table that has a slot for every type in range, for a type T in range and handlers
H (not `NULL`) and H2 different from H: `nl_srv_register(T, H)` returns 0; after it
`nl_srv_unregister(T, H2)` returns `-EINVAL` and leaves the globals as they are, H still
stored for T, whereas `nl_srv_unregister(T, H)` returns 0 and leaves the slot of T empty and
the rest unchanged.  For a type outside `[WLAN_NL_MSG_BASE, WLAN_NL_MSG_MAX)`, whatever the
globals and the handler, `nl_srv_unregister` returns `-EINVAL` and changes nothing. -/
theorem nl_srv_unregister_identity_check (cfg : Config) (g : nlink_state) (T : Int)
    (H H2 : nl_srv_msg_callback)
    (ht : cfg.WLAN_NL_MSG_MAX - cfg.WLAN_NL_MSG_BASE ≤ g.nl_srv_msg_handler.length)
    (hlo : cfg.WLAN_NL_MSG_BASE ≤ T) (hhi : T < cfg.WLAN_NL_MSG_MAX)
    (hH : H ≠ NULL) (hne : H ≠ H2) :
    (∃ g1, nl_srv_register cfg g T H = some (0, g1) ∧
      nl_srv_unregister cfg g1 T H2 = some (-EINVAL, g1) ∧
      table_read g1.nl_srv_msg_handler (T - cfg.WLAN_NL_MSG_BASE) = some H ∧
      ∃ g2, nl_srv_unregister cfg g1 T H = some (0, g2) ∧
        table_read g2.nl_srv_msg_handler (T - cfg.WLAN_NL_MSG_BASE) = some NULL ∧
        (∀ j, j ≠ T - cfg.WLAN_NL_MSG_BASE →
          table_read g2.nl_srv_msg_handler j = table_read g1.nl_srv_msg_handler j) ∧
        g2.nl_srv_sock = g1.nl_srv_sock) ∧
    (∀ (g3 : nlink_state) (T3 : Int) (H3 : nl_srv_msg_callback),
      (T3 < cfg.WLAN_NL_MSG_BASE ∨ T3 ≥ cfg.WLAN_NL_MSG_MAX) →
        nl_srv_unregister cfg g3 T3 H3 = some (-EINVAL, g3)) := by
  have h0 : 0 ≤ T - cfg.WLAN_NL_MSG_BASE := by omega
  have hlt : (T - cfg.WLAN_NL_MSG_BASE).toNat < g.nl_srv_msg_handler.length := by omega
  constructor
  · refine ⟨⟨g.nl_srv_sock, g.nl_srv_msg_handler.set (T - cfg.WLAN_NL_MSG_BASE).toNat H⟩,
      ?_, ?_, ?_, ?_⟩
    · unfold nl_srv_register
      rw [if_pos ⟨hlo, hhi, hH⟩, table_write_in_range cfg _ _ _ ht hlo hhi]
    · unfold nl_srv_unregister
      rw [if_pos ⟨hlo, hhi⟩]
      dsimp only
      rw [table_read_set_same _ _ _ h0 hlt]
      dsimp only
      rw [if_neg hne]
    · exact table_read_set_same _ _ _ h0 hlt
    · refine ⟨⟨g.nl_srv_sock, (g.nl_srv_msg_handler.set (T - cfg.WLAN_NL_MSG_BASE).toNat H).set
          (T - cfg.WLAN_NL_MSG_BASE).toNat NULL⟩, ?_, ?_, ?_, rfl⟩
      · unfold nl_srv_unregister
        rw [if_pos ⟨hlo, hhi⟩]
        dsimp only
        rw [table_read_set_same _ _ _ h0 hlt]
        dsimp only
        rw [if_pos rfl, table_write_in_range cfg _ _ _ (by simpa using ht) hlo hhi]
      · exact table_read_set_same _ _ _ h0 (by simpa using hlt)
      · intro j hj
        exact table_read_set_other _ _ _ _ h0 hj
  · intro g3 T3 H3 hout
    unfold nl_srv_unregister
    rw [if_neg (by omega)]

/-- C2 at type `0x12` with handlers 7 and 8, on the sample table. -/
theorem nl_srv_unregister_identity_check_witness :
    (wlan_cfg.WLAN_NL_MSG_MAX - wlan_cfg.WLAN_NL_MSG_BASE ≤
      (sample_state.nl_srv_msg_handler.length : Int)) ∧
    wlan_cfg.WLAN_NL_MSG_BASE ≤ (18 : Int) ∧ (18 : Int) < wlan_cfg.WLAN_NL_MSG_MAX ∧
    (7 : nl_srv_msg_callback) ≠ NULL ∧ (7 : nl_srv_msg_callback) ≠ 8 ∧
    (∃ g1, nl_srv_register wlan_cfg sample_state 18 7 = some (0, g1) ∧
      nl_srv_unregister wlan_cfg g1 18 8 = some (-EINVAL, g1) ∧
      table_read g1.nl_srv_msg_handler (18 - wlan_cfg.WLAN_NL_MSG_BASE) = some 7 ∧
      ∃ g2, nl_srv_unregister wlan_cfg g1 18 7 = some (0, g2) ∧
        table_read g2.nl_srv_msg_handler (18 - wlan_cfg.WLAN_NL_MSG_BASE) = some NULL ∧
        (∀ j, j ≠ 18 - wlan_cfg.WLAN_NL_MSG_BASE →
          table_read g2.nl_srv_msg_handler j = table_read g1.nl_srv_msg_handler j) ∧
        g2.nl_srv_sock = g1.nl_srv_sock) :=
  ⟨by decide, by decide, by decide, by decide, by decide,
    (nl_srv_unregister_identity_check wlan_cfg sample_state 18 7 8 (by decide) (by decide)
      (by decide) (by decide) (by decide)).1⟩

/-- C3: `nl_srv_register` on a table that has a slot for every type in range: it returns
`-EINVAL` exactly when the type is outside `[WLAN_NL_MSG_BASE, WLAN_NL_MSG_MAX)` or the
callback is `NULL`, and then the globals are unchanged; otherwise it returns 0, the slot of
the type holds the callback whatever it held before, every other slot reads as before, and
the endpoint and the size of the table are unchanged. -/
theorem nl_srv_register_spec (cfg : Config) (g : nlink_state) (msg_type : Int)
    (msg_handler : nl_srv_msg_callback)
    (ht : cfg.WLAN_NL_MSG_MAX - cfg.WLAN_NL_MSG_BASE ≤ g.nl_srv_msg_handler.length) :
    ∃ ret g1, nl_srv_register cfg g msg_type msg_handler = some (ret, g1) ∧
      (ret = -EINVAL ↔ (msg_type < cfg.WLAN_NL_MSG_BASE ∨ msg_type ≥ cfg.WLAN_NL_MSG_MAX ∨
        msg_handler = NULL)) ∧
      (ret = -EINVAL → g1 = g) ∧
      (ret ≠ -EINVAL → ret = 0 ∧
        table_read g1.nl_srv_msg_handler (msg_type - cfg.WLAN_NL_MSG_BASE) = some msg_handler ∧
        (∀ j, j ≠ msg_type - cfg.WLAN_NL_MSG_BASE →
          table_read g1.nl_srv_msg_handler j = table_read g.nl_srv_msg_handler j) ∧
        g1.nl_srv_msg_handler.length = g.nl_srv_msg_handler.length ∧
        g1.nl_srv_sock = g.nl_srv_sock) := by
  unfold nl_srv_register
  by_cases hc : msg_type ≥ cfg.WLAN_NL_MSG_BASE ∧ msg_type < cfg.WLAN_NL_MSG_MAX ∧
      msg_handler ≠ NULL
  · obtain ⟨h1, h2, h3⟩ := hc
    rw [if_pos ⟨h1, h2, h3⟩, table_write_in_range cfg _ _ _ ht h1 h2]
    refine ⟨0, _, rfl, ?_, ?_, ?_⟩
    · constructor
      · intro h; exact absurd h (by decide)
      · rintro (h | h | h)
        · omega
        · omega
        · exact absurd h h3
    · intro h; exact absurd h (by decide)
    · intro _
      refine ⟨rfl, ?_, ?_, ?_, rfl⟩
      · exact table_read_set_same _ _ _ (by omega) (by omega)
      · intro j hj
        exact table_read_set_other _ _ _ _ (by omega) hj
      · simp
  · rw [if_neg hc]
    refine ⟨-EINVAL, g, rfl, ?_, fun _ => rfl, fun h => absurd rfl h⟩
    constructor
    · intro _
      by_cases h1 : msg_type < cfg.WLAN_NL_MSG_BASE
      · exact Or.inl h1
      · by_cases h2 : msg_type ≥ cfg.WLAN_NL_MSG_MAX
        · exact Or.inr (Or.inl h2)
        · refine Or.inr (Or.inr ?_)
          by_contra h3
          exact hc ⟨by omega, by omega, h3⟩
    · intro _; rfl

/-- C3 at type `0x12` and handler 7, on the sample table. -/
theorem nl_srv_register_spec_witness :
    (wlan_cfg.WLAN_NL_MSG_MAX - wlan_cfg.WLAN_NL_MSG_BASE ≤
      (sample_state.nl_srv_msg_handler.length : Int)) ∧
    ∃ ret g1, nl_srv_register wlan_cfg sample_state 18 7 = some (ret, g1) ∧
      (ret = -EINVAL ↔ ((18 : Int) < wlan_cfg.WLAN_NL_MSG_BASE ∨
        (18 : Int) ≥ wlan_cfg.WLAN_NL_MSG_MAX ∨ (7 : nl_srv_msg_callback) = NULL)) ∧
      (ret = -EINVAL → g1 = sample_state) ∧
      (ret ≠ -EINVAL → ret = 0 ∧
        table_read g1.nl_srv_msg_handler (18 - wlan_cfg.WLAN_NL_MSG_BASE) = some 7 ∧
        (∀ j, j ≠ 18 - wlan_cfg.WLAN_NL_MSG_BASE →
          table_read g1.nl_srv_msg_handler j = table_read sample_state.nl_srv_msg_handler j) ∧
        g1.nl_srv_msg_handler.length = sample_state.nl_srv_msg_handler.length ∧
        g1.nl_srv_sock = sample_state.nl_srv_sock) :=
  ⟨by decide, nl_srv_register_spec wlan_cfg sample_state 18 7 (by decide)⟩

/-! ## Frames that are not requests -/

/-- C4: whatever the buffer, the table and the handlers, and however long the run, every
handler invocation `nl_srv_rcv_skb` makes is for a frame whose `NLM_F_REQUEST` flag is set:
the header at the cursor of the buffer passed to the handler has the flag.  In particular a
buffer that holds a single frame of declared length 20 with the flag cleared (of any type,
`WLAN_NL_MSG_BASE` included) causes no invocation, and the run returns. -/
theorem nl_srv_rcv_skb_only_requests (cfg : Config) (call : callback_sem) (fuel : Nat)
    (skb : sk_buff) (g : nlink_state) (type flags seq pid : Nat) (payload : List Nat)
    (hlen : payload.length = 4) (hclr : flags % 2 = 0) :
    (∀ e ∈ (nl_srv_rcv_skb cfg call fuel { skb := skb, g := g, invoked := [] }).2.invoked,
      (nlmsghdr_of (skb_data e.2)).nlmsg_flags &&& NLM_F_REQUEST ≠ 0) ∧
    (nl_srv_rcv_skb cfg call fuel
      (rcv_start g (nlmsg_bytes 20 type flags seq pid payload))).2.invoked = [] ∧
    (2 ≤ fuel → (nl_srv_rcv_skb cfg call fuel
      (rcv_start g (nlmsg_bytes 20 type flags seq pid payload))).1 = Outcome.returned) := by
  have hhdr := nlmsghdr_of_nlmsg_bytes 20 type flags seq pid payload
  have hfl : (nlmsg_bytes 20 type flags seq pid payload).length = 20 := by
    simp [nlmsg_bytes, hlen]
  have hflag : (nlmsghdr_of (nlmsg_bytes 20 type flags seq pid payload)).nlmsg_flags &&&
      NLM_F_REQUEST = 0 := by
    rw [hhdr, land_request]; dsimp only; omega
  have hwf : well_framed (nlmsg_bytes 20 type flags seq pid payload) := by
    unfold well_framed
    rw [hhdr, hfl]
    dsimp only
    exact ⟨by decide, by decide⟩
  have hnone := dispatch_target_cleared cfg g.nl_srv_msg_handler _ hflag
  have hstep : ∀ n, nl_srv_rcv_skb cfg call (n + 1)
      (rcv_start g (nlmsg_bytes 20 type flags seq pid payload)) =
      nl_srv_rcv_skb cfg call n
        { skb := skb_pull (skb_of_bytes (nlmsg_bytes 20 type flags seq pid payload)) 20,
          g := g, invoked := [] } := by
    intro n
    rw [nl_srv_rcv_skb_step cfg call n _ (nlmsg_bytes 20 type flags seq pid payload) [] hwf
      (fun h => absurd hflag h) (by simp [rcv_start, skb_of_bytes, skb_data])
      (by simp [rcv_start, skb_of_bytes])]
    simp only [rcv_start, hnone, hfl]
  have hpl : (skb_pull (skb_of_bytes (nlmsg_bytes 20 type flags seq pid payload)) 20).len = 0 := by
    rw [skb_pull_len _ _ (by simp [skb_of_bytes, hfl])]
    simp [skb_of_bytes, hfl]
  have hend : ∀ n, (nl_srv_rcv_skb cfg call n
      { skb := skb_pull (skb_of_bytes (nlmsg_bytes 20 type flags seq pid payload)) 20,
        g := g, invoked := [] }).2.invoked = [] ∧
      (1 ≤ n → (nl_srv_rcv_skb cfg call n
      { skb := skb_pull (skb_of_bytes (nlmsg_bytes 20 type flags seq pid payload)) 20,
        g := g, invoked := [] }).1 = Outcome.returned) := by
    intro n
    cases n with
    | zero => exact ⟨rfl, fun h => absurd h (by decide)⟩
    | succ m =>
      rw [nl_srv_rcv_skb, if_neg (by rw [NLMSG_SPACE_zero, hpl]; decide)]
      exact ⟨rfl, fun _ => rfl⟩
  refine ⟨?_, ?_, ?_⟩
  · refine nl_srv_rcv_skb_invariant cfg call _ ?_ fuel _ (by simp)
    intro s h _ _ _ ht
    exact dispatch_target_request cfg _ _ h ht
  · cases fuel with
    | zero => rfl
    | succ n => rw [hstep]; exact (hend n).1
  · intro h2
    obtain ⟨n, rfl⟩ : ∃ n, fuel = n + 1 := ⟨fuel - 1, by omega⟩
    rw [hstep]
    exact (hend n).2 (by omega)

/-- C4 at the scenario of the specification: one frame of type `WLAN_NL_MSG_BASE`, request flag cleared, declared length 20. -/
theorem nl_srv_rcv_skb_only_requests_witness :
    [(1 : Nat), 2, 3, 4].length = 4 ∧ 0 % 2 = 0 ∧
    (nl_srv_rcv_skb wlan_cfg pure_callbacks 2
      (rcv_start sample_state (nlmsg_bytes 20 16 0 0 0 [1, 2, 3, 4]))).2.invoked = [] :=
  ⟨by decide, by decide,
    (nl_srv_rcv_skb_only_requests wlan_cfg pure_callbacks 2 (skb_of_bytes []) sample_state
      16 0 0 0 [1, 2, 3, 4] (by decide) (by decide)).2.1⟩

/-- C5, counterexample: in the buffer made of a frame whose request flag is cleared followed by
a valid request frame, the second frame, although located after a non-request frame, is
dispatched to its handler. -/
theorem frame_after_non_request_counterexample :
    (nlmsghdr_of sample_frame_noreq).nlmsg_flags &&& NLM_F_REQUEST = 0 ∧
    calls_of (nl_srv_rcv_skb wlan_cfg pure_callbacks 3
      (rcv_start sample_state (sample_frame_noreq ++ sample_frame_b))) =
        [(102, sample_frame_b)] := by
  decide

/-- C5, amended: when the receive dispatcher meets a well-framed frame whose request flag is
not set, it drops that frame alone and goes on with the rest of the buffer: with handlers that
change nothing, the run on the frame followed by any bytes `rest` spends one iteration on the
frame, invokes no handler for it, and then ends as the run on `rest` alone does, with the same
invocations. -/
theorem nl_srv_rcv_skb_skips_non_request (cfg : Config) (call : callback_sem) (g : nlink_state)
    (nf rest : List Nat) (fuel : Nat)
    (hpure : ∀ h skb g, call h skb g = (skb, g))
    (hwf : well_framed nf)
    (hclr : (nlmsghdr_of nf).nlmsg_flags &&& NLM_F_REQUEST = 0) :
    (nl_srv_rcv_skb cfg call (fuel + 1) (rcv_start g (nf ++ rest))).1 =
      (nl_srv_rcv_skb cfg call fuel (rcv_start g rest)).1 ∧
    calls_of (nl_srv_rcv_skb cfg call (fuel + 1) (rcv_start g (nf ++ rest))) =
      calls_of (nl_srv_rcv_skb cfg call fuel (rcv_start g rest)) := by
  have hnone := dispatch_target_cleared cfg g.nl_srv_msg_handler _ hclr
  rw [nl_srv_rcv_skb_step cfg call fuel _ nf rest hwf (fun h => absurd hclr h)
    (by simp [rcv_start, skb_of_bytes, skb_data]) (by simp [rcv_start, skb_of_bytes])]
  simp only [rcv_start, hnone]
  have hle : nf.length ≤ (skb_of_bytes (nf ++ rest)).len := by simp [skb_of_bytes]
  apply nl_srv_rcv_skb_relocate cfg call hpure
  · show skb_data (skb_pull (skb_of_bytes (nf ++ rest)) nf.length) = skb_data (skb_of_bytes rest)
    rw [skb_data_pull _ _ hle]
    simp [skb_data, skb_of_bytes]
  · show (skb_pull (skb_of_bytes (nf ++ rest)) nf.length).len = (skb_of_bytes rest).len
    rw [skb_pull_len _ _ hle]
    simp [skb_of_bytes]
  · rfl
  · rfl

/-- C5 as amended, at a non-request frame followed by a valid request frame. -/
theorem nl_srv_rcv_skb_skips_non_request_witness :
    (∀ h skb g, pure_callbacks h skb g = (skb, g)) ∧
    well_framed sample_frame_noreq ∧
    (nlmsghdr_of sample_frame_noreq).nlmsg_flags &&& NLM_F_REQUEST = 0 ∧
    calls_of (nl_srv_rcv_skb wlan_cfg pure_callbacks (2 + 1)
      (rcv_start sample_state (sample_frame_noreq ++ sample_frame_b))) =
      calls_of (nl_srv_rcv_skb wlan_cfg pure_callbacks 2 (rcv_start sample_state sample_frame_b)) :=
  ⟨fun _ _ _ => rfl, by decide, by decide,
    (nl_srv_rcv_skb_skips_non_request wlan_cfg pure_callbacks sample_state sample_frame_noreq
      sample_frame_b 2 (fun _ _ _ => rfl) (by decide) (by decide)).2⟩

/-! ## Frames that are dropped, buffers that are abandoned -/

/-- C6: a buffer made of a well-framed frame (a request or not) whose type is outside
`[WLAN_NL_MSG_BASE, WLAN_NL_MSG_MAX)` followed by valid request frames with registered
handlers, with handlers that change nothing: `nl_srv_rcv_skb` returns, it invokes no handler
for the out-of-range frame, and it invokes, in order, the handler of every following frame,
each positioned on its frame: the invocations are those of the run on the buffer without the
bad frame. -/
theorem nl_srv_rcv_skb_skips_unknown_type (cfg : Config) (call : callback_sem)
    (g : nlink_state) (bad : List Nat) (fs : List (List Nat)) (fuel : Nat)
    (hpure : ∀ h skb g, call h skb g = (skb, g))
    (hwf : well_framed bad)
    (hout : ((nlmsghdr_of bad).nlmsg_type : Int) < cfg.WLAN_NL_MSG_BASE ∨
      ((nlmsghdr_of bad).nlmsg_type : Int) ≥ cfg.WLAN_NL_MSG_MAX)
    (hvalid : ∀ f ∈ fs, valid_request_frame cfg g f)
    (hfuel : fs.length + 1 < fuel) :
    (nl_srv_rcv_skb cfg call fuel (rcv_start g (bad ++ fs.flatten))).1 = Outcome.returned ∧
    (calls_of (nl_srv_rcv_skb cfg call fuel (rcv_start g (bad ++ fs.flatten)))).length =
      fs.length ∧
    (∀ i, i < fs.length →
      (calls_of (nl_srv_rcv_skb cfg call fuel (rcv_start g (bad ++ fs.flatten))))[i]? =
        some (registered_handler cfg g (fs.getD i []), (fs.drop i).flatten)) ∧
    calls_of (nl_srv_rcv_skb cfg call fuel (rcv_start g (bad ++ fs.flatten))) =
      calls_of (nl_srv_rcv_skb cfg call fuel (rcv_start g fs.flatten)) := by
  obtain ⟨k, rfl⟩ : ∃ k, fuel = (bad :: fs).length + 1 + k :=
    ⟨fuel - (fs.length + 2), by simp only [List.length_cons]; omega⟩
  have hslots : ∀ f ∈ fs, well_framed f ∧ has_slot cfg g.nl_srv_msg_handler (nlmsghdr_of f) :=
    fun f hf => ⟨(valid_frame_target cfg g f (hvalid f hf)).1,
      (valid_frame_target cfg g f (hvalid f hf)).2.1⟩
  have hbad : well_framed bad ∧ has_slot cfg g.nl_srv_msg_handler (nlmsghdr_of bad) :=
    ⟨hwf, fun _ h1 h2 _ => by omega⟩
  have hall : ∀ f ∈ bad :: fs,
      well_framed f ∧ has_slot cfg g.nl_srv_msg_handler (nlmsghdr_of f) := by
    intro f hf
    rcases List.mem_cons.mp hf with h | h
    · rw [h]; exact hbad
    · exact hslots f h
  have h1 := nl_srv_rcv_skb_calls cfg call hpure g [] (by simp) (bad :: fs) k hall
  have e2 : (bad :: fs).length + 1 + k = fs.length + 1 + (k + 1) := by
    simp only [List.length_cons]; omega
  have h2 := nl_srv_rcv_skb_calls cfg call hpure g [] (by simp) fs (k + 1) hslots
  rw [← e2] at h2
  simp only [List.flatten_cons, List.append_nil] at h1 h2
  obtain ⟨hlen, hidx⟩ := expected_calls_valid cfg g [] fs hvalid
  have hexp : expected_calls cfg g.nl_srv_msg_handler [] (bad :: fs) =
      expected_calls cfg g.nl_srv_msg_handler [] fs := by
    simp [expected_calls, dispatch_target_bad_type cfg _ _ hout]
  rw [h1.2, h2.2, hexp]
  refine ⟨h1.1, hlen, ?_, rfl⟩
  intro i hi
  rw [hidx i hi, List.append_nil]

/-- C6 at a frame of type `0x30` followed by two valid request frames. -/
theorem nl_srv_rcv_skb_skips_unknown_type_witness :
    (∀ h skb g, pure_callbacks h skb g = (skb, g)) ∧
    well_framed sample_frame_badtype ∧
    (((nlmsghdr_of sample_frame_badtype).nlmsg_type : Int) < wlan_cfg.WLAN_NL_MSG_BASE ∨
      ((nlmsghdr_of sample_frame_badtype).nlmsg_type : Int) ≥ wlan_cfg.WLAN_NL_MSG_MAX) ∧
    (∀ f ∈ [sample_frame_a, sample_frame_b], valid_request_frame wlan_cfg sample_state f) ∧
    [sample_frame_a, sample_frame_b].length + 1 < 4 ∧
    calls_of (nl_srv_rcv_skb wlan_cfg pure_callbacks 4
      (rcv_start sample_state
        (sample_frame_badtype ++ [sample_frame_a, sample_frame_b].flatten))) =
      calls_of (nl_srv_rcv_skb wlan_cfg pure_callbacks 4
        (rcv_start sample_state [sample_frame_a, sample_frame_b].flatten)) :=
  ⟨fun _ _ _ => rfl, by decide, by decide, by decide, by decide,
    (nl_srv_rcv_skb_skips_unknown_type wlan_cfg pure_callbacks sample_state
      sample_frame_badtype [sample_frame_a, sample_frame_b] 4 (fun _ _ _ => rfl) (by decide)
      (by decide) (by decide) (by decide)).2.2.2⟩

/-- C7: when the header at the cursor declares a length smaller than the 16-byte header or
greater than the bytes that remain, `nl_srv_rcv_skb` returns at once with everything as it
was: no handler is invoked for that frame or for anything after it, and the cursor is not
advanced.  In particular a fresh buffer whose first frame declares more than the buffer holds
causes no handler invocation. -/
theorem nl_srv_rcv_skb_malformed_header (cfg : Config) (call : callback_sem) (fuel : Nat)
    (s : rcv_state)
    (hbad : (nlmsghdr_of (skb_data s.skb)).nlmsg_len < sizeof_nlmsghdr ∨
      s.skb.len < (nlmsghdr_of (skb_data s.skb)).nlmsg_len) :
    nl_srv_rcv_skb cfg call (fuel + 1) s = (Outcome.returned, s) ∧
    (∀ (g : nlink_state) (bytes : List Nat), bytes.length < (nlmsghdr_of bytes).nlmsg_len →
      nl_srv_rcv_skb cfg call (fuel + 1) (rcv_start g bytes) =
        (Outcome.returned, rcv_start g bytes) ∧
      (nl_srv_rcv_skb cfg call (fuel + 1) (rcv_start g bytes)).2.invoked = []) := by
  have key : ∀ s : rcv_state,
      ((nlmsghdr_of (skb_data s.skb)).nlmsg_len < sizeof_nlmsghdr ∨
        s.skb.len < (nlmsghdr_of (skb_data s.skb)).nlmsg_len) →
      nl_srv_rcv_skb cfg call (fuel + 1) s = (Outcome.returned, s) := by
    intro s hb
    rw [nl_srv_rcv_skb]
    by_cases hc : s.skb.len ≥ NLMSG_SPACE 0
    · rw [if_pos hc]
      dsimp only
      rw [if_pos hb]
    · rw [if_neg hc]
  refine ⟨key s hbad, ?_⟩
  intro g bytes hlong
  have hk := key (rcv_start g bytes) (Or.inr (by
    simpa [rcv_start, skb_of_bytes, skb_data] using hlong))
  exact ⟨hk, by rw [hk]; rfl⟩

/-- C7 at a buffer of 20 bytes whose header declares 64. -/
theorem nl_srv_rcv_skb_malformed_header_witness :
    ((nlmsghdr_of (skb_data (rcv_start sample_state sample_frame_overlong).skb)).nlmsg_len <
        sizeof_nlmsghdr ∨
      (rcv_start sample_state sample_frame_overlong).skb.len <
        (nlmsghdr_of (skb_data (rcv_start sample_state sample_frame_overlong).skb)).nlmsg_len) ∧
    nl_srv_rcv_skb wlan_cfg pure_callbacks (4 + 1) (rcv_start sample_state sample_frame_overlong) =
      (Outcome.returned, rcv_start sample_state sample_frame_overlong) :=
  ⟨by decide,
    (nl_srv_rcv_skb_malformed_header wlan_cfg pure_callbacks 4
      (rcv_start sample_state sample_frame_overlong) (by decide)).1⟩

/-! ## The two-frame scenario -/

/-- C8, counterexample: with the driver's constants and handlers 101 and 102 stored for
`WLAN_NL_MSG_BASE` and `WLAN_NL_MSG_BASE + 1`, the buffer made of a request frame of type BASE
and declared length 20 followed by a request frame of type BASE + 1 and declared length 16
gets one invocation only, of the BASE handler; the BASE + 1 handler is not invoked. -/
theorem two_frame_scenario_counterexample :
    handlers_of (nl_srv_rcv_skb wlan_cfg pure_callbacks 3
      (rcv_start sample_state (sample_frame_a ++ sample_frame_bare))) = [101] ∧
    ¬ (handlers_of (nl_srv_rcv_skb wlan_cfg pure_callbacks 3
      (rcv_start sample_state (sample_frame_a ++ sample_frame_bare))) = [101, 102]) := by
  decide

/-- C8, amended: where `tAniMsgHdr` takes four bytes, for the buffer made of a request frame
of type BASE and declared length 20 followed by a request frame of type BASE + 1, handlers
`h1` and `h2` stored for the two types and changing nothing: when the second frame declares
length 16, `nl_srv_rcv_skb` invokes `h1` once, on the first frame, and nothing else, the
second frame being shorter than `NLMSG_LENGTH(sizeof(tAniMsgHdr))`; when the second frame
declares length 20 and carries four more bytes, it invokes `h1` and then `h2`, once each, each
on its frame. -/
theorem nl_srv_rcv_skb_two_frames (cfg : Config) (call : callback_sem) (g : nlink_state)
    (h1 h2 : nl_srv_msg_callback) (seq1 pid1 seq2 pid2 : Nat) (P1 P2 : List Nat) (fuel : Nat)
    (hpure : ∀ h skb g, call h skb g = (skb, g))
    (hsz : cfg.sizeof_tAniMsgHdr = 4)
    (hb0 : 0 ≤ cfg.WLAN_NL_MSG_BASE) (hb1 : cfg.WLAN_NL_MSG_BASE + 1 < cfg.WLAN_NL_MSG_MAX)
    (hb2 : cfg.WLAN_NL_MSG_BASE + 1 < 65536)
    (hr1 : table_read g.nl_srv_msg_handler 0 = some h1)
    (hr2 : table_read g.nl_srv_msg_handler 1 = some h2)
    (hn1 : h1 ≠ NULL) (hn2 : h2 ≠ NULL)
    (hP1 : P1.length = 4) (hP2 : P2.length = 4) (hfuel : 2 < fuel) :
    ((nl_srv_rcv_skb cfg call fuel (rcv_start g
        (nlmsg_bytes 20 cfg.WLAN_NL_MSG_BASE.toNat NLM_F_REQUEST seq1 pid1 P1 ++
          nlmsg_bytes 16 (cfg.WLAN_NL_MSG_BASE + 1).toNat NLM_F_REQUEST seq2 pid2 []))).1 =
        Outcome.returned ∧
      calls_of (nl_srv_rcv_skb cfg call fuel (rcv_start g
        (nlmsg_bytes 20 cfg.WLAN_NL_MSG_BASE.toNat NLM_F_REQUEST seq1 pid1 P1 ++
          nlmsg_bytes 16 (cfg.WLAN_NL_MSG_BASE + 1).toNat NLM_F_REQUEST seq2 pid2 []))) =
        [(h1, nlmsg_bytes 20 cfg.WLAN_NL_MSG_BASE.toNat NLM_F_REQUEST seq1 pid1 P1 ++
          nlmsg_bytes 16 (cfg.WLAN_NL_MSG_BASE + 1).toNat NLM_F_REQUEST seq2 pid2 [])]) ∧
    ((nl_srv_rcv_skb cfg call fuel (rcv_start g
        (nlmsg_bytes 20 cfg.WLAN_NL_MSG_BASE.toNat NLM_F_REQUEST seq1 pid1 P1 ++
          nlmsg_bytes 20 (cfg.WLAN_NL_MSG_BASE + 1).toNat NLM_F_REQUEST seq2 pid2 P2))).1 =
        Outcome.returned ∧
      calls_of (nl_srv_rcv_skb cfg call fuel (rcv_start g
        (nlmsg_bytes 20 cfg.WLAN_NL_MSG_BASE.toNat NLM_F_REQUEST seq1 pid1 P1 ++
          nlmsg_bytes 20 (cfg.WLAN_NL_MSG_BASE + 1).toNat NLM_F_REQUEST seq2 pid2 P2))) =
        [(h1, nlmsg_bytes 20 cfg.WLAN_NL_MSG_BASE.toNat NLM_F_REQUEST seq1 pid1 P1 ++
            nlmsg_bytes 20 (cfg.WLAN_NL_MSG_BASE + 1).toNat NLM_F_REQUEST seq2 pid2 P2),
          (h2, nlmsg_bytes 20 (cfg.WLAN_NL_MSG_BASE + 1).toNat NLM_F_REQUEST seq2 pid2 P2)]) := by
  obtain ⟨k, rfl⟩ : ∃ k, fuel = 2 + 1 + k := ⟨fuel - 3, by omega⟩
  generalize hf1 : nlmsg_bytes 20 cfg.WLAN_NL_MSG_BASE.toNat NLM_F_REQUEST seq1 pid1 P1 = f1
  generalize hf2 : nlmsg_bytes 16 (cfg.WLAN_NL_MSG_BASE + 1).toNat NLM_F_REQUEST seq2 pid2 [] = f2
  generalize hf3 : nlmsg_bytes 20 (cfg.WLAN_NL_MSG_BASE + 1).toNat NLM_F_REQUEST seq2 pid2 P2 = f3
  have hh1 : nlmsghdr_of f1 = ⟨20, cfg.WLAN_NL_MSG_BASE.toNat, 1, seq1 % 2 ^ 32, pid1 % 2 ^ 32⟩ := by
    rw [← hf1, nlmsghdr_of_nlmsg_bytes]
    have hty : cfg.WLAN_NL_MSG_BASE.toNat % 65536 = cfg.WLAN_NL_MSG_BASE.toNat := by omega
    simp [NLM_F_REQUEST, hty]
  have hh2 : nlmsghdr_of f2 =
      ⟨16, (cfg.WLAN_NL_MSG_BASE + 1).toNat, 1, seq2 % 2 ^ 32, pid2 % 2 ^ 32⟩ := by
    rw [← hf2, nlmsghdr_of_nlmsg_bytes]
    have hty : (cfg.WLAN_NL_MSG_BASE + 1).toNat % 65536 = (cfg.WLAN_NL_MSG_BASE + 1).toNat := by omega
    simp [NLM_F_REQUEST, hty]
  have hh3 : nlmsghdr_of f3 =
      ⟨20, (cfg.WLAN_NL_MSG_BASE + 1).toNat, 1, seq2 % 2 ^ 32, pid2 % 2 ^ 32⟩ := by
    rw [← hf3, nlmsghdr_of_nlmsg_bytes]
    have hty : (cfg.WLAN_NL_MSG_BASE + 1).toNat % 65536 = (cfg.WLAN_NL_MSG_BASE + 1).toNat := by omega
    simp [NLM_F_REQUEST, hty]
  have hl1 : f1.length = 20 := by rw [← hf1]; simp [nlmsg_bytes, hP1]
  have hl2 : f2.length = 16 := by rw [← hf2]; simp [nlmsg_bytes]
  have hl3 : f3.length = 20 := by rw [← hf3]; simp [nlmsg_bytes, hP2]
  have hw1 : well_framed f1 := by
    unfold well_framed; rw [hh1, hl1]; dsimp only; exact ⟨by decide, by decide⟩
  have hw2 : well_framed f2 := by
    unfold well_framed; rw [hh2, hl2]; dsimp only; exact ⟨by decide, by decide⟩
  have hw3 : well_framed f3 := by
    unfold well_framed; rw [hh3, hl3]; dsimp only; exact ⟨by decide, by decide⟩
  have hreq : (1 : Nat) &&& NLM_F_REQUEST ≠ 0 := by decide
  have e1 : ((cfg.WLAN_NL_MSG_BASE.toNat : Nat) : Int) - cfg.WLAN_NL_MSG_BASE = 0 := by omega
  have e2 : (((cfg.WLAN_NL_MSG_BASE + 1).toNat : Nat) : Int) - cfg.WLAN_NL_MSG_BASE = 1 := by
    omega
  have ht1 : dispatch_target cfg g.nl_srv_msg_handler (nlmsghdr_of f1) = some h1 := by
    rw [hh1]
    exact dispatch_target_some cfg _ _ h1 hreq (by dsimp only; omega) (by dsimp only; omega)
      (by rw [NLMSG_LENGTH_eq, hsz]) (by dsimp only; rw [e1]; exact hr1) hn1
  have ht2 : dispatch_target cfg g.nl_srv_msg_handler (nlmsghdr_of f2) = none := by
    rw [hh2]
    exact dispatch_target_short cfg _ _ (by rw [NLMSG_LENGTH_eq, hsz]; dsimp only; omega)
  have ht3 : dispatch_target cfg g.nl_srv_msg_handler (nlmsghdr_of f3) = some h2 := by
    rw [hh3]
    exact dispatch_target_some cfg _ _ h2 hreq (by dsimp only; omega) (by dsimp only; omega)
      (by rw [NLMSG_LENGTH_eq, hsz]) (by dsimp only; rw [e2]; exact hr2) hn2
  have hs1 : has_slot cfg g.nl_srv_msg_handler (nlmsghdr_of f1) := by
    rw [hh1]; exact fun _ _ _ _ => ⟨h1, by dsimp only; rw [e1]; exact hr1⟩
  have hs2 : has_slot cfg g.nl_srv_msg_handler (nlmsghdr_of f2) := by
    rw [hh2]; exact fun _ _ _ _ => ⟨h2, by dsimp only; rw [e2]; exact hr2⟩
  have hs3 : has_slot cfg g.nl_srv_msg_handler (nlmsghdr_of f3) := by
    rw [hh3]; exact fun _ _ _ _ => ⟨h2, by dsimp only; rw [e2]; exact hr2⟩
  have ra := nl_srv_rcv_skb_calls cfg call hpure g [] (by simp) [f1, f2] k (by
    intro f hf
    simp only [List.mem_cons, List.mem_singleton, List.not_mem_nil, or_false] at hf
    rcases hf with h | h <;> rw [h]
    · exact ⟨hw1, hs1⟩
    · exact ⟨hw2, hs2⟩)
  have rb := nl_srv_rcv_skb_calls cfg call hpure g [] (by simp) [f1, f3] k (by
    intro f hf
    simp only [List.mem_cons, List.mem_singleton, List.not_mem_nil, or_false] at hf
    rcases hf with h | h <;> rw [h]
    · exact ⟨hw1, hs1⟩
    · exact ⟨hw3, hs3⟩)
  simp only [List.flatten_cons, List.flatten_nil, List.append_nil, List.length_cons,
    List.length_nil, expected_calls, ht1, ht2, ht3, List.singleton_append, List.nil_append,
    List.append_nil] at ra rb
  exact ⟨ra, rb⟩

/-- C8 as amended, with the driver's constants and handlers 101 and 102. -/
theorem nl_srv_rcv_skb_two_frames_witness :
    (∀ h skb g, pure_callbacks h skb g = (skb, g)) ∧
    wlan_cfg.sizeof_tAniMsgHdr = 4 ∧
    0 ≤ wlan_cfg.WLAN_NL_MSG_BASE ∧ wlan_cfg.WLAN_NL_MSG_BASE + 1 < wlan_cfg.WLAN_NL_MSG_MAX ∧
    wlan_cfg.WLAN_NL_MSG_BASE + 1 < 65536 ∧
    table_read sample_state.nl_srv_msg_handler 0 = some 101 ∧
    table_read sample_state.nl_srv_msg_handler 1 = some 102 ∧
    (101 : nl_srv_msg_callback) ≠ NULL ∧ (102 : nl_srv_msg_callback) ≠ NULL ∧
    [(1 : Nat), 2, 3, 4].length = 4 ∧ [(5 : Nat), 6, 7, 8].length = 4 ∧ 2 < 3 ∧
    calls_of (nl_srv_rcv_skb wlan_cfg pure_callbacks 3 (rcv_start sample_state
        (nlmsg_bytes 20 wlan_cfg.WLAN_NL_MSG_BASE.toNat NLM_F_REQUEST 0 0 [1, 2, 3, 4] ++
          nlmsg_bytes 16 (wlan_cfg.WLAN_NL_MSG_BASE + 1).toNat NLM_F_REQUEST 0 0 []))) =
        [(101, nlmsg_bytes 20 wlan_cfg.WLAN_NL_MSG_BASE.toNat NLM_F_REQUEST 0 0 [1, 2, 3, 4] ++
          nlmsg_bytes 16 (wlan_cfg.WLAN_NL_MSG_BASE + 1).toNat NLM_F_REQUEST 0 0 [])] :=
  ⟨fun _ _ _ => rfl, by decide, by decide, by decide, by decide, by decide, by decide,
    by decide, by decide, by decide, by decide, by decide,
    (nl_srv_rcv_skb_two_frames wlan_cfg pure_callbacks sample_state 101 102 0 0 0 0
      [1, 2, 3, 4] [5, 6, 7, 8] 3 (fun _ _ _ => rfl) (by decide) (by decide) (by decide)
      (by decide) (by decide) (by decide) (by decide) (by decide) (by decide) (by decide)
      (by decide)).1.2⟩

/-! ## The delivery gateway -/

/-- C9, counterexample: without `CNSS_GENL`, `nl_srv_ucast` and `nl_srv_bcast` called while
`nl_srv_sock` is absent return 0, not a negative code. -/
theorem absent_endpoint_returns_zero_counterexample :
    sample_state_down.nl_srv_sock = none ∧
    (Direct.nl_srv_ucast sample_env sample_state_down (skb_of_bytes sample_frame_a) 42 0).1 = 0 ∧
    (Direct.nl_srv_bcast wlan_cfg sample_env sample_state_down
      (skb_of_bytes sample_frame_a)).1 = 0 ∧
    ¬ ((Direct.nl_srv_ucast sample_env sample_state_down
      (skb_of_bytes sample_frame_a) 42 0).1 < 0) ∧
    ¬ ((Direct.nl_srv_bcast wlan_cfg sample_env sample_state_down
      (skb_of_bytes sample_frame_a)).1 < 0) := by
  decide

/-- C9, amended: without `CNSS_GENL`, `nl_srv_ucast` and `nl_srv_bcast` called while
`nl_srv_sock` is absent return 0 (no error code is reported), call no transport primitive,
and release the buffer exactly once: their only effect is `dev_kfree_skb` of the buffer. -/
theorem nl_srv_send_absent_endpoint (cfg : Config) (env : Collaborators) (g : nlink_state)
    (skb : sk_buff) (dst_pid flag : Int) (hdown : g.nl_srv_sock = none) :
    (Direct.nl_srv_ucast env g skb dst_pid flag =
        (0, [Effect.dev_kfree_skb { skb with cb := { portid := 0, dst_group := 0 } }]) ∧
      (∀ e ∈ (Direct.nl_srv_ucast env g skb dst_pid flag).2, e.is_transport_send = false) ∧
      releases (Direct.nl_srv_ucast env g skb dst_pid flag).2 = 1) ∧
    (Direct.nl_srv_bcast cfg env g skb =
        (0, [Effect.dev_kfree_skb
          { skb with cb := { portid := 0, dst_group := cfg.WLAN_NLINK_MCAST_GRP_ID } }]) ∧
      (∀ e ∈ (Direct.nl_srv_bcast cfg env g skb).2, e.is_transport_send = false) ∧
      releases (Direct.nl_srv_bcast cfg env g skb).2 = 1) := by
  unfold Direct.nl_srv_ucast Direct.nl_srv_bcast
  rw [hdown]
  refine ⟨⟨rfl, ?_, rfl⟩, ⟨rfl, ?_, rfl⟩⟩
  · intro e he
    rw [List.mem_singleton] at he
    rw [he]; rfl
  · intro e he
    rw [List.mem_singleton] at he
    rw [he]; rfl

/-- C9 as amended, at the sample globals with the endpoint absent. -/
theorem nl_srv_send_absent_endpoint_witness :
    sample_state_down.nl_srv_sock = none ∧
    Direct.nl_srv_ucast sample_env sample_state_down (skb_of_bytes sample_frame_a) 42 0 =
      (0, [Effect.dev_kfree_skb
        { skb_of_bytes sample_frame_a with cb := { portid := 0, dst_group := 0 } }]) :=
  ⟨rfl, (nl_srv_send_absent_endpoint wlan_cfg sample_env sample_state_down
    (skb_of_bytes sample_frame_a) 42 0 rfl).1.1⟩

/-- C10, at the failing inputs: with `CNSS_GENL`, when `send_msg_to_cld80211` fails (here for
want of memory in `nlmsg_new`, and for an unknown multicast group), `nl_srv_bcast` and
`nl_srv_ucast` return `-EPERM` having released the buffer zero times and without freeing the
scratch copy they allocated; on the success path the buffer is released once. -/
theorem nl_srv_send_genl_error_path_leaks :
    (CnssGenl.nl_srv_bcast sample_env_nomem (skb_of_bytes sample_frame_a) 3 7).1 = -EPERM ∧
    releases (CnssGenl.nl_srv_bcast sample_env_nomem (skb_of_bytes sample_frame_a) 3 7).2 = 0 ∧
    (CnssGenl.nl_srv_bcast sample_env_nomem (skb_of_bytes sample_frame_a) 3 7).2.countP
      Effect.frees_tempbuf = 0 ∧
    (CnssGenl.nl_srv_ucast sample_env_nogroup (skb_of_bytes sample_frame_a) 42 0 7 3).1 =
      -EPERM ∧
    releases (CnssGenl.nl_srv_ucast sample_env_nogroup
      (skb_of_bytes sample_frame_a) 42 0 7 3).2 = 0 ∧
    (CnssGenl.nl_srv_ucast sample_env_nogroup (skb_of_bytes sample_frame_a) 42 0 7 3).2.countP
      Effect.frees_tempbuf = 0 ∧
    (CnssGenl.nl_srv_bcast sample_env (skb_of_bytes sample_frame_a) 3 7).1 = 0 ∧
    releases (CnssGenl.nl_srv_bcast sample_env (skb_of_bytes sample_frame_a) 3 7).2 = 1 := by
  decide

/-! ## Lifecycle of the endpoint -/

/-- C11: when endpoint creation succeeds, `nl_srv_init` returns 0, stores the endpoint, and
leaves a registry of `NLINK_MAX_CALLBACKS` slots that are all empty, whatever the table held
before; when endpoint creation fails, it returns `-ECONNREFUSED`, the endpoint is absent and
the table is as it was. -/
theorem nl_srv_init_spec (cfg : Config) (g : nlink_state) (sk : Nat) :
    (nl_srv_init cfg (some sk) g).1 = 0 ∧
    (nl_srv_init cfg (some sk) g).2.nl_srv_sock = some sk ∧
    (nl_srv_init cfg (some sk) g).2.nl_srv_msg_handler.length = cfg.NLINK_MAX_CALLBACKS ∧
    (∀ h ∈ (nl_srv_init cfg (some sk) g).2.nl_srv_msg_handler, h = NULL) ∧
    (∀ i : Int, 0 ≤ i → i < cfg.NLINK_MAX_CALLBACKS →
      table_read (nl_srv_init cfg (some sk) g).2.nl_srv_msg_handler i = some NULL) ∧
    (nl_srv_init cfg none g).1 = -ECONNREFUSED ∧
    (nl_srv_init cfg none g).2.nl_srv_sock = none ∧
    (nl_srv_init cfg none g).2.nl_srv_msg_handler = g.nl_srv_msg_handler := by
  refine ⟨rfl, rfl, ?_, ?_, ?_, rfl, rfl, rfl⟩
  · simp [nl_srv_init]
  · intro h hh
    simp only [nl_srv_init] at hh
    exact (List.mem_replicate.mp hh).2
  · intro i h0 hlt
    simp only [nl_srv_init, table_read]
    rw [if_pos h0, List.getElem?_replicate, if_pos (by omega)]

/-- C12: `nl_srv_is_initialized` returns 0 exactly when the endpoint is present and `-EPERM`
otherwise, and changes neither the endpoint nor the registry; `nl_srv_exit` releases the
endpoint and leaves it absent, so that `nl_srv_is_initialized` then returns `-EPERM`, and it
leaves the registry unchanged. -/
theorem nl_srv_is_initialized_spec (g : nlink_state) :
    ((nl_srv_is_initialized g).1 = 0 ↔ g.nl_srv_sock ≠ none) ∧
    ((nl_srv_is_initialized g).1 = -EPERM ↔ g.nl_srv_sock = none) ∧
    (nl_srv_is_initialized g).2 = g ∧
    (nl_srv_exit g).1.nl_srv_sock = none ∧
    (nl_srv_exit g).2 = g.nl_srv_sock ∧
    (nl_srv_is_initialized (nl_srv_exit g).1).1 = -EPERM ∧
    (nl_srv_exit g).1.nl_srv_msg_handler = g.nl_srv_msg_handler := by
  refine ⟨?_, ?_, ?_, rfl, rfl, rfl, rfl⟩
  · unfold nl_srv_is_initialized
    cases g.nl_srv_sock with
    | none => exact ⟨fun h => absurd (show (-EPERM : Int) = 0 from h) (by decide),
        fun h => absurd rfl h⟩
    | some sk => exact ⟨fun _ => by simp, fun _ => rfl⟩
  · unfold nl_srv_is_initialized
    cases g.nl_srv_sock with
    | none => exact ⟨fun _ => rfl, fun _ => rfl⟩
    | some sk => exact ⟨fun h => absurd (show (0 : Int) = -EPERM from h) (by decide),
        fun h => absurd h (by simp)⟩
  · unfold nl_srv_is_initialized
    cases g.nl_srv_sock <;> rfl

/-- C15: registration is idempotent and the last writer wins.  On a table that has a slot for
every type in range, for a type T in range and handlers H and H2 that are not `NULL`:
registering (T, H) twice leaves the globals that registering it once leaves, and registering
(T, H) and then (T, H2) leaves the globals that registering (T, H2) alone leaves. -/
theorem nl_srv_register_idempotent (cfg : Config) (g : nlink_state) (T : Int)
    (H H2 : nl_srv_msg_callback)
    (ht : cfg.WLAN_NL_MSG_MAX - cfg.WLAN_NL_MSG_BASE ≤ g.nl_srv_msg_handler.length)
    (hlo : cfg.WLAN_NL_MSG_BASE ≤ T) (hhi : T < cfg.WLAN_NL_MSG_MAX)
    (hH : H ≠ NULL) (hH2 : H2 ≠ NULL) :
    ∃ g1 g2, nl_srv_register cfg g T H = some (0, g1) ∧
      nl_srv_register cfg g1 T H = some (0, g1) ∧
      nl_srv_register cfg g T H2 = some (0, g2) ∧
      nl_srv_register cfg g1 T H2 = some (0, g2) := by
  refine ⟨⟨g.nl_srv_sock, g.nl_srv_msg_handler.set (T - cfg.WLAN_NL_MSG_BASE).toNat H⟩,
    ⟨g.nl_srv_sock, g.nl_srv_msg_handler.set (T - cfg.WLAN_NL_MSG_BASE).toNat H2⟩,
    ?_, ?_, ?_, ?_⟩
  · unfold nl_srv_register
    rw [if_pos ⟨hlo, hhi, hH⟩, table_write_in_range cfg _ _ _ ht hlo hhi]
  · unfold nl_srv_register
    rw [if_pos ⟨hlo, hhi, hH⟩, table_write_in_range cfg _ _ _ (by simpa using ht) hlo hhi]
    simp [List.set_set]
  · unfold nl_srv_register
    rw [if_pos ⟨hlo, hhi, hH2⟩, table_write_in_range cfg _ _ _ ht hlo hhi]
  · unfold nl_srv_register
    rw [if_pos ⟨hlo, hhi, hH2⟩, table_write_in_range cfg _ _ _ (by simpa using ht) hlo hhi]
    simp [List.set_set]

/-- C15 at type `0x12` with handlers 7 and 8, on the sample table. -/
theorem nl_srv_register_idempotent_witness :
    (wlan_cfg.WLAN_NL_MSG_MAX - wlan_cfg.WLAN_NL_MSG_BASE ≤
      (sample_state.nl_srv_msg_handler.length : Int)) ∧
    wlan_cfg.WLAN_NL_MSG_BASE ≤ (18 : Int) ∧ (18 : Int) < wlan_cfg.WLAN_NL_MSG_MAX ∧
    (7 : nl_srv_msg_callback) ≠ NULL ∧ (8 : nl_srv_msg_callback) ≠ NULL ∧
    ∃ g1 g2, nl_srv_register wlan_cfg sample_state 18 7 = some (0, g1) ∧
      nl_srv_register wlan_cfg g1 18 7 = some (0, g1) ∧
      nl_srv_register wlan_cfg sample_state 18 8 = some (0, g2) ∧
      nl_srv_register wlan_cfg g1 18 8 = some (0, g2) :=
  ⟨by decide, by decide, by decide, by decide, by decide,
    nl_srv_register_idempotent wlan_cfg sample_state 18 7 8 (by decide) (by decide)
      (by decide) (by decide) (by decide)⟩

/-! ## The advance of the cursor -/

/-- C13, counterexample: a buffer of 2^32 - 1 bytes whose first header, a request of type
`WLAN_NL_MSG_BASE`, declares 2^32 - 3 bytes.  The header passes the check of line 438 and the
frame is dispatched, but the cursor does not advance, whereas the declared length rounded up
to 4 and clamped to the bytes remaining is 2^32 - 1. -/
theorem advance_at_32bit_boundary_counterexample :
    sizeof_nlmsghdr ≤ (nlmsghdr_of (skb_data (rcv_start sample_state
      (sample_hdr_huge ++ List.replicate 4294967279 0)).skb)).nlmsg_len ∧
    (nlmsghdr_of (skb_data (rcv_start sample_state
      (sample_hdr_huge ++ List.replicate 4294967279 0)).skb)).nlmsg_len ≤
      (rcv_start sample_state (sample_hdr_huge ++ List.replicate 4294967279 0)).skb.len ∧
    (nl_srv_rcv_skb wlan_cfg pure_callbacks 1 (rcv_start sample_state
      (sample_hdr_huge ++ List.replicate 4294967279 0))).2.invoked.map Prod.fst = [101] ∧
    (nl_srv_rcv_skb wlan_cfg pure_callbacks 1 (rcv_start sample_state
      (sample_hdr_huge ++ List.replicate 4294967279 0))).2.skb.data =
      (rcv_start sample_state (sample_hdr_huge ++ List.replicate 4294967279 0)).skb.data ∧
    min (((nlmsghdr_of (skb_data (rcv_start sample_state
        (sample_hdr_huge ++ List.replicate 4294967279 0)).skb)).nlmsg_len + 3) / 4 * 4)
      (rcv_start sample_state (sample_hdr_huge ++ List.replicate 4294967279 0)).skb.len =
      4294967295 ∧
    ¬ ((nl_srv_rcv_skb wlan_cfg pure_callbacks 1 (rcv_start sample_state
      (sample_hdr_huge ++ List.replicate 4294967279 0))).2.skb.data =
      (rcv_start sample_state (sample_hdr_huge ++ List.replicate 4294967279 0)).skb.data +
        min (((nlmsghdr_of (skb_data (rcv_start sample_state
            (sample_hdr_huge ++ List.replicate 4294967279 0)).skb)).nlmsg_len + 3) / 4 * 4)
          (rcv_start sample_state
            (sample_hdr_huge ++ List.replicate 4294967279 0)).skb.len) := by
  generalize hb : sample_hdr_huge ++ List.replicate 4294967279 0 = buf
  have hlen : buf.length = 4294967295 := by
    rw [← hb, List.length_append, List.length_replicate]
    rfl
  have hhdr : nlmsghdr_of buf = ⟨4294967293, 16, 1, 0, 0⟩ := by
    rw [← hb, nlmsghdr_of_append _ _ (by decide)]
    decide
  have hd : skb_data (rcv_start sample_state buf).skb = buf := by
    show List.drop 0 buf = buf
    rw [List.drop_zero]
  have hl : (rcv_start sample_state buf).skb.len = 4294967295 := hlen
  have hdata : (rcv_start sample_state buf).skb.data = 0 := rfl
  have hrun : nl_srv_rcv_skb wlan_cfg pure_callbacks 1 (rcv_start sample_state buf) =
      (Outcome.out_of_fuel,
        ⟨(rcv_start sample_state buf).skb, sample_state,
          [(101, (rcv_start sample_state buf).skb)]⟩) := by
    rw [nl_srv_rcv_skb_iteration wlan_cfg pure_callbacks 0 _
      (by rw [hd, hhdr]; decide) (by rw [hd, hhdr, hl]; decide)]
    rw [nl_srv_rcv_msg_eq wlan_cfg pure_callbacks _ _
      (has_slot_of_size wlan_cfg _ _
        (show wlan_cfg.WLAN_NL_MSG_MAX - wlan_cfg.WLAN_NL_MSG_BASE ≤
          (sample_state.nl_srv_msg_handler.length : Int) by decide))]
    rw [hd, hhdr, hl]
    have ht : dispatch_target wlan_cfg (rcv_start sample_state buf).g.nl_srv_msg_handler
        ⟨4294967293, 16, 1, 0, 0⟩ = some 101 :=
      show dispatch_target wlan_cfg sample_state.nl_srv_msg_handler
        ⟨4294967293, 16, 1, 0, 0⟩ = some 101 by decide
    rw [ht]
    dsimp only
    rw [invoke_pure pure_callbacks (fun _ _ _ => rfl)]
    have ha : NLMSG_ALIGN 4294967293 = 0 := by decide
    rw [ha, Nat.zero_min, skb_pull_zero, nl_srv_rcv_skb]
    rfl
  rw [hrun, hd, hhdr, hl, hdata]
  dsimp only
  exact ⟨by decide, by decide, rfl, rfl, by decide, by decide⟩

/-- C13, amended: when the header at the cursor passes the check of line 438 (16 <= declared
length <= bytes remaining), one iteration of the loop first hands the frame to
`nl_srv_rcv_msg`, with the buffer still positioned on the frame, and then pulls the buffer by
exactly min(NLMSG_ALIGN(length), remaining), `NLMSG_ALIGN` being computed in 32 bits; on a
buffer the handler left alone this moves the cursor forward by that amount and takes it off
the remaining length.  For a declared length up to 2^32 - 4 the amount is
min(round-up-to-4(length), remaining); from 2^32 - 3 on `NLMSG_ALIGN` wraps to 0 and the
cursor does not move.  A last frame of declared length 21 with 21 bytes remaining is
dispatched, and the cursor advances by 21, not 24. -/
theorem nl_srv_rcv_skb_advance (cfg : Config) (call : callback_sem) (fuel : Nat) (s : rcv_state)
    (hlo : sizeof_nlmsghdr ≤ (nlmsghdr_of (skb_data s.skb)).nlmsg_len)
    (hhi : (nlmsghdr_of (skb_data s.skb)).nlmsg_len ≤ s.skb.len) :
    nl_srv_rcv_skb cfg call (fuel + 1) s =
      (match nl_srv_rcv_msg cfg call s (nlmsghdr_of (skb_data s.skb)) with
        | (Outcome.returned, s1) =>
          nl_srv_rcv_skb cfg call fuel
            ⟨skb_pull s1.skb
              (min (NLMSG_ALIGN (nlmsghdr_of (skb_data s.skb)).nlmsg_len) s.skb.len),
              s1.g, s1.invoked⟩
        | r => r) ∧
    (skb_pull s.skb (min (NLMSG_ALIGN (nlmsghdr_of (skb_data s.skb)).nlmsg_len) s.skb.len)).data =
      s.skb.data + min (NLMSG_ALIGN (nlmsghdr_of (skb_data s.skb)).nlmsg_len) s.skb.len ∧
    (skb_pull s.skb (min (NLMSG_ALIGN (nlmsghdr_of (skb_data s.skb)).nlmsg_len) s.skb.len)).len =
      s.skb.len - min (NLMSG_ALIGN (nlmsghdr_of (skb_data s.skb)).nlmsg_len) s.skb.len ∧
    ((nlmsghdr_of (skb_data s.skb)).nlmsg_len + 3 < 2 ^ 32 →
      NLMSG_ALIGN (nlmsghdr_of (skb_data s.skb)).nlmsg_len =
        ((nlmsghdr_of (skb_data s.skb)).nlmsg_len + 3) / 4 * 4 ∧
      min (NLMSG_ALIGN (nlmsghdr_of (skb_data s.skb)).nlmsg_len) s.skb.len =
        min (((nlmsghdr_of (skb_data s.skb)).nlmsg_len + 3) / 4 * 4) s.skb.len) ∧
    (2 ^ 32 ≤ (nlmsghdr_of (skb_data s.skb)).nlmsg_len + 3 →
      NLMSG_ALIGN (nlmsghdr_of (skb_data s.skb)).nlmsg_len = 0 ∧
      min (NLMSG_ALIGN (nlmsghdr_of (skb_data s.skb)).nlmsg_len) s.skb.len = 0 ∧
      skb_pull s.skb
        (min (NLMSG_ALIGN (nlmsghdr_of (skb_data s.skb)).nlmsg_len) s.skb.len) = s.skb) ∧
    nl_srv_rcv_skb wlan_cfg pure_callbacks 2 (rcv_start sample_state sample_frame_odd) =
      (Outcome.returned,
        { skb := { skb_of_bytes sample_frame_odd with data := 21, len := 0 },
          g := sample_state,
          invoked := [(101, skb_of_bytes sample_frame_odd)] }) := by
  refine ⟨nl_srv_rcv_skb_iteration cfg call fuel s hlo hhi, ?_, ?_, ?_, ?_, by decide⟩
  · unfold skb_pull
    rw [if_neg (by omega)]
  · unfold skb_pull
    rw [if_neg (by omega)]
  · intro h
    have ha : NLMSG_ALIGN (nlmsghdr_of (skb_data s.skb)).nlmsg_len =
        ((nlmsghdr_of (skb_data s.skb)).nlmsg_len + 3) / 4 * 4 := by
      rw [NLMSG_ALIGN_eq, Nat.mod_eq_of_lt h]
    exact ⟨ha, by rw [ha]⟩
  · intro h
    have hlt : (nlmsghdr_of (skb_data s.skb)).nlmsg_len < 2 ^ 32 := rd32_lt _ 0
    have ha := NLMSG_ALIGN_wraps (nlmsghdr_of (skb_data s.skb)).nlmsg_len (by omega) hlt
    rw [ha, Nat.zero_min]
    exact ⟨rfl, rfl, skb_pull_zero s.skb⟩

/-- C13 as amended, at the frame of declared length 21 in a buffer of 21 bytes. -/
theorem nl_srv_rcv_skb_advance_witness :
    sizeof_nlmsghdr ≤
      (nlmsghdr_of (skb_data (rcv_start sample_state sample_frame_odd).skb)).nlmsg_len ∧
    (nlmsghdr_of (skb_data (rcv_start sample_state sample_frame_odd).skb)).nlmsg_len ≤
      (rcv_start sample_state sample_frame_odd).skb.len ∧
    (skb_pull (rcv_start sample_state sample_frame_odd).skb
      (min (NLMSG_ALIGN
        (nlmsghdr_of (skb_data (rcv_start sample_state sample_frame_odd).skb)).nlmsg_len)
        (rcv_start sample_state sample_frame_odd).skb.len)).data =
      (rcv_start sample_state sample_frame_odd).skb.data +
        min (NLMSG_ALIGN
          (nlmsghdr_of (skb_data (rcv_start sample_state sample_frame_odd).skb)).nlmsg_len)
          (rcv_start sample_state sample_frame_odd).skb.len :=
  ⟨by decide, by decide,
    (nl_srv_rcv_skb_advance wlan_cfg pure_callbacks 1 (rcv_start sample_state sample_frame_odd)
      (by decide) (by decide)).2.1⟩

/-- C14: a well-framed frame whose declared length is smaller than
`NLMSG_LENGTH(sizeof(tAniMsgHdr))`, whatever its flags and type, so in particular a request
frame with a type in range.  `nl_srv_rcv_msg` returns without invoking a handler, whatever the
table holds for the type.  And `nl_srv_rcv_skb` goes on to dispatch what follows: on the
buffer made of the short frame and then valid request frames, with handlers that change
nothing, it returns after one invocation per following frame, the i-th being the handler
stored for the type of the i-th following frame with the buffer positioned on that frame,
which are the invocations of the run on the buffer without the short frame.  More generally
the run on the short frame followed by any bytes `rest` spends one iteration on the frame and
then ends as the run on `rest` alone, with the same invocations. -/
theorem nl_srv_rcv_skb_skips_short_frame (cfg : Config) (call : callback_sem) (g : nlink_state)
    (short : List Nat) (fs : List (List Nat)) (fuel : Nat)
    (hpure : ∀ h skb g, call h skb g = (skb, g))
    (hwf : well_framed short)
    (hshort : (nlmsghdr_of short).nlmsg_len < NLMSG_LENGTH cfg.sizeof_tAniMsgHdr)
    (hvalid : ∀ f ∈ fs, valid_request_frame cfg g f)
    (hfuel : fs.length + 1 < fuel) :
    (∀ s : rcv_state, nl_srv_rcv_msg cfg call s (nlmsghdr_of short) = (Outcome.returned, s)) ∧
    (nl_srv_rcv_skb cfg call fuel (rcv_start g (short ++ fs.flatten))).1 = Outcome.returned ∧
    (calls_of (nl_srv_rcv_skb cfg call fuel (rcv_start g (short ++ fs.flatten)))).length =
      fs.length ∧
    (∀ i, i < fs.length →
      (calls_of (nl_srv_rcv_skb cfg call fuel (rcv_start g (short ++ fs.flatten))))[i]? =
        some (registered_handler cfg g (fs.getD i []), (fs.drop i).flatten)) ∧
    calls_of (nl_srv_rcv_skb cfg call fuel (rcv_start g (short ++ fs.flatten))) =
      calls_of (nl_srv_rcv_skb cfg call fuel (rcv_start g fs.flatten)) ∧
    (∀ (rest : List Nat) (n : Nat),
      (nl_srv_rcv_skb cfg call (n + 1) (rcv_start g (short ++ rest))).1 =
        (nl_srv_rcv_skb cfg call n (rcv_start g rest)).1 ∧
      calls_of (nl_srv_rcv_skb cfg call (n + 1) (rcv_start g (short ++ rest))) =
        calls_of (nl_srv_rcv_skb cfg call n (rcv_start g rest))) := by
  have hnone := dispatch_target_short cfg g.nl_srv_msg_handler _ hshort
  have hslot : has_slot cfg g.nl_srv_msg_handler (nlmsghdr_of short) :=
    fun _ _ _ h => absurd hshort (by omega)
  refine ⟨fun s => nl_srv_rcv_msg_short cfg call s _ hshort, ?_⟩
  have hrel : ∀ (rest : List Nat) (n : Nat),
      (nl_srv_rcv_skb cfg call (n + 1) (rcv_start g (short ++ rest))).1 =
        (nl_srv_rcv_skb cfg call n (rcv_start g rest)).1 ∧
      calls_of (nl_srv_rcv_skb cfg call (n + 1) (rcv_start g (short ++ rest))) =
        calls_of (nl_srv_rcv_skb cfg call n (rcv_start g rest)) := by
    intro rest n
    rw [nl_srv_rcv_skb_step cfg call n _ short rest hwf hslot
      (by simp [rcv_start, skb_of_bytes, skb_data]) (by simp [rcv_start, skb_of_bytes])]
    simp only [rcv_start, hnone]
    have hle : short.length ≤ (skb_of_bytes (short ++ rest)).len := by simp [skb_of_bytes]
    apply nl_srv_rcv_skb_relocate cfg call hpure
    · show skb_data (skb_pull (skb_of_bytes (short ++ rest)) short.length) =
        skb_data (skb_of_bytes rest)
      rw [skb_data_pull _ _ hle]
      simp [skb_data, skb_of_bytes]
    · show (skb_pull (skb_of_bytes (short ++ rest)) short.length).len =
        (skb_of_bytes rest).len
      rw [skb_pull_len _ _ hle]
      simp [skb_of_bytes]
    · rfl
    · rfl
  obtain ⟨k, rfl⟩ : ∃ k, fuel = (short :: fs).length + 1 + k :=
    ⟨fuel - (fs.length + 2), by simp only [List.length_cons]; omega⟩
  have hslots : ∀ f ∈ fs, well_framed f ∧ has_slot cfg g.nl_srv_msg_handler (nlmsghdr_of f) :=
    fun f hf => ⟨(valid_frame_target cfg g f (hvalid f hf)).1,
      (valid_frame_target cfg g f (hvalid f hf)).2.1⟩
  have hall : ∀ f ∈ short :: fs,
      well_framed f ∧ has_slot cfg g.nl_srv_msg_handler (nlmsghdr_of f) := by
    intro f hf
    rcases List.mem_cons.mp hf with h | h
    · rw [h]; exact ⟨hwf, hslot⟩
    · exact hslots f h
  have h1 := nl_srv_rcv_skb_calls cfg call hpure g [] (by simp) (short :: fs) k hall
  have e2 : (short :: fs).length + 1 + k = fs.length + 1 + (k + 1) := by
    simp only [List.length_cons]; omega
  have h2 := nl_srv_rcv_skb_calls cfg call hpure g [] (by simp) fs (k + 1) hslots
  rw [← e2] at h2
  simp only [List.flatten_cons, List.append_nil] at h1 h2
  obtain ⟨hlen, hidx⟩ := expected_calls_valid cfg g [] fs hvalid
  have hexp : expected_calls cfg g.nl_srv_msg_handler [] (short :: fs) =
      expected_calls cfg g.nl_srv_msg_handler [] fs := by
    simp [expected_calls, hnone]
  rw [h1.2, h2.2, hexp]
  refine ⟨h1.1, hlen, ?_, rfl, hrel⟩
  intro i hi
  rw [hidx i hi, List.append_nil]

/-- C14 at a request frame of type `0x10` and declared length 18, for which handler 101 is
registered, followed by a valid request frame of type `0x11`: handler 101 is not invoked and
handler 102 is, on the second frame. -/
theorem nl_srv_rcv_skb_skips_short_frame_witness :
    (∀ h skb g, pure_callbacks h skb g = (skb, g)) ∧
    well_framed sample_frame_short ∧
    (nlmsghdr_of sample_frame_short).nlmsg_len < NLMSG_LENGTH wlan_cfg.sizeof_tAniMsgHdr ∧
    (∀ f ∈ [sample_frame_b], valid_request_frame wlan_cfg sample_state f) ∧
    [sample_frame_b].length + 1 < 3 ∧
    (nlmsghdr_of sample_frame_short).nlmsg_flags &&& NLM_F_REQUEST ≠ 0 ∧
    registered_handler wlan_cfg sample_state sample_frame_short = 101 ∧
    calls_of (nl_srv_rcv_skb wlan_cfg pure_callbacks 3
      (rcv_start sample_state (sample_frame_short ++ sample_frame_b))) =
      [(102, sample_frame_b)] ∧
    (calls_of (nl_srv_rcv_skb wlan_cfg pure_callbacks 3
      (rcv_start sample_state (sample_frame_short ++ [sample_frame_b].flatten)))).length =
      [sample_frame_b].length :=
  ⟨fun _ _ _ => rfl, by decide, by decide, by decide, by decide, by decide, by decide,
    by decide,
    (nl_srv_rcv_skb_skips_short_frame wlan_cfg pure_callbacks sample_state sample_frame_short
      [sample_frame_b] 3 (fun _ _ _ => rfl) (by decide) (by decide) (by decide)
      (by decide)).2.2.1⟩

/-- C16: when fewer than 16 bytes (`NLMSG_SPACE(0)`) remain at the cursor, `nl_srv_rcv_skb`
returns with everything as it was: no handler is invoked for the trailing bytes and the cursor
does not move.  In particular a buffer shorter than one header, the empty buffer included,
causes no invocation.  And whenever a run returns, either fewer than 16 bytes remain at the
cursor or the header there is the malformed one that made the loop give up. -/
theorem nl_srv_rcv_skb_end_of_buffer (cfg : Config) (call : callback_sem) (fuel : Nat)
    (s : rcv_state) (hshort : s.skb.len < NLMSG_SPACE 0) :
    nl_srv_rcv_skb cfg call (fuel + 1) s = (Outcome.returned, s) ∧
    (∀ (g : nlink_state) (bytes : List Nat), bytes.length < 16 →
      nl_srv_rcv_skb cfg call (fuel + 1) (rcv_start g bytes) =
        (Outcome.returned, rcv_start g bytes) ∧
      (nl_srv_rcv_skb cfg call (fuel + 1) (rcv_start g bytes)).2.invoked = []) ∧
    (∀ g : nlink_state,
      (nl_srv_rcv_skb cfg call (fuel + 1) (rcv_start g [])).2.invoked = []) ∧
    (∀ (n : Nat) (s0 t : rcv_state), nl_srv_rcv_skb cfg call n s0 = (Outcome.returned, t) →
      t.skb.len < NLMSG_SPACE 0 ∨
      ((nlmsghdr_of (skb_data t.skb)).nlmsg_len < sizeof_nlmsghdr ∨
        t.skb.len < (nlmsghdr_of (skb_data t.skb)).nlmsg_len)) := by
  have hb : ∀ (g : nlink_state) (bytes : List Nat), bytes.length < 16 →
      nl_srv_rcv_skb cfg call (fuel + 1) (rcv_start g bytes) =
        (Outcome.returned, rcv_start g bytes) := by
    intro g bytes hlt
    exact nl_srv_rcv_skb_short cfg call fuel _ (by
      rw [NLMSG_SPACE_zero]; simpa [rcv_start, skb_of_bytes] using hlt)
  refine ⟨nl_srv_rcv_skb_short cfg call fuel s hshort, ?_, ?_,
    nl_srv_rcv_skb_returned_end cfg call⟩
  · intro g bytes hlt
    exact ⟨hb g bytes hlt, by rw [hb g bytes hlt]; rfl⟩
  · intro g
    rw [hb g [] (by simp)]; rfl

/-- C16 at a buffer of ten bytes. -/
theorem nl_srv_rcv_skb_end_of_buffer_witness :
    (rcv_start sample_state [1, 2, 3, 4, 5, 6, 7, 8, 9, 10]).skb.len < NLMSG_SPACE 0 ∧
    nl_srv_rcv_skb wlan_cfg pure_callbacks (0 + 1)
      (rcv_start sample_state [1, 2, 3, 4, 5, 6, 7, 8, 9, 10]) =
      (Outcome.returned, rcv_start sample_state [1, 2, 3, 4, 5, 6, 7, 8, 9, 10]) :=
  ⟨by decide,
    (nl_srv_rcv_skb_end_of_buffer wlan_cfg pure_callbacks 0
      (rcv_start sample_state [1, 2, 3, 4, 5, 6, 7, 8, 9, 10]) (by decide)).1⟩

/-! ## Termination, bounds, and the state of the buffer at an invocation -/

/-- C17: with handlers that do not grow the buffer, on a buffer of fewer than 2^32 - 3 bytes
the loop of `nl_srv_rcv_skb` comes to an end: fuel beyond the remaining length is never used
up.  There, an iteration that gets past the check of line 438 advances by at least 16 bytes
and at most the bytes remaining, so that the remaining length strictly decreases and does not
underflow.  At the 32-bit boundary, a declared length of 2^32 - 3 or more, `NLMSG_ALIGN` wraps
to 0, the advance is 0 and `skb_pull` leaves the buffer where it is. -/
theorem nl_srv_rcv_skb_loop_terminates (cfg : Config) (call : callback_sem) (fuel : Nat)
    (s : rcv_state)
    (hnogrow : ∀ h skb g, (call h skb g).1.len ≤ skb.len)
    (hL : s.skb.len < 2 ^ 32 - 3) (hfuel : s.skb.len < fuel) :
    (nl_srv_rcv_skb cfg call fuel s).1 ≠ Outcome.out_of_fuel ∧
    (sizeof_nlmsghdr ≤ (nlmsghdr_of (skb_data s.skb)).nlmsg_len →
      (nlmsghdr_of (skb_data s.skb)).nlmsg_len ≤ s.skb.len →
      16 ≤ min (NLMSG_ALIGN (nlmsghdr_of (skb_data s.skb)).nlmsg_len) s.skb.len ∧
      min (NLMSG_ALIGN (nlmsghdr_of (skb_data s.skb)).nlmsg_len) s.skb.len ≤ s.skb.len ∧
      (skb_pull s.skb
        (min (NLMSG_ALIGN (nlmsghdr_of (skb_data s.skb)).nlmsg_len) s.skb.len)).len =
        s.skb.len - min (NLMSG_ALIGN (nlmsghdr_of (skb_data s.skb)).nlmsg_len) s.skb.len ∧
      (skb_pull s.skb
        (min (NLMSG_ALIGN (nlmsghdr_of (skb_data s.skb)).nlmsg_len) s.skb.len)).len <
        s.skb.len) ∧
    (∀ n : Nat, 2 ^ 32 - 3 ≤ n → n < 2 ^ 32 →
      NLMSG_ALIGN n = 0 ∧
      ∀ skb : sk_buff, min (NLMSG_ALIGN n) skb.len = 0 ∧
        skb_pull skb (min (NLMSG_ALIGN n) skb.len) = skb) := by
  refine ⟨nl_srv_rcv_skb_terminates cfg call hnogrow fuel s hL hfuel, ?_, ?_⟩
  · intro hlo hhi
    unfold sizeof_nlmsghdr at hlo
    have hb := advance_bounds (nlmsghdr_of (skb_data s.skb)).nlmsg_len s.skb.len hlo hhi hL
    have hmin : (if NLMSG_ALIGN (nlmsghdr_of (skb_data s.skb)).nlmsg_len > s.skb.len
        then s.skb.len else NLMSG_ALIGN (nlmsghdr_of (skb_data s.skb)).nlmsg_len) =
        min (NLMSG_ALIGN (nlmsghdr_of (skb_data s.skb)).nlmsg_len) s.skb.len := by
      split_ifs <;> omega
    rw [hmin] at hb
    have hp := skb_pull_len s.skb
      (min (NLMSG_ALIGN (nlmsghdr_of (skb_data s.skb)).nlmsg_len) s.skb.len) hb.2
    exact ⟨hb.1, hb.2, hp, by omega⟩
  · intro n hlo hhi
    have h0 := NLMSG_ALIGN_wraps n hlo hhi
    refine ⟨h0, fun skb => ?_⟩
    rw [h0, Nat.zero_min]
    exact ⟨rfl, skb_pull_zero skb⟩

/-- C17 at a buffer of two frames, 44 bytes, with handlers that change nothing. -/
theorem nl_srv_rcv_skb_loop_terminates_witness :
    (∀ h skb g, (pure_callbacks h skb g).1.len ≤ skb.len) ∧
    (rcv_start sample_state (sample_frame_a ++ sample_frame_b)).skb.len < 2 ^ 32 - 3 ∧
    (rcv_start sample_state (sample_frame_a ++ sample_frame_b)).skb.len < 45 ∧
    (nl_srv_rcv_skb wlan_cfg pure_callbacks 45
      (rcv_start sample_state (sample_frame_a ++ sample_frame_b))).1 ≠ Outcome.out_of_fuel :=
  ⟨fun _ _ _ => Nat.le_refl _, by decide, by decide,
    (nl_srv_rcv_skb_loop_terminates wlan_cfg pure_callbacks 45
      (rcv_start sample_state (sample_frame_a ++ sample_frame_b))
      (fun _ _ _ => Nat.le_refl _) (by decide) (by decide)).1⟩

/-- C18: on a table that has at least `WLAN_NL_MSG_MAX - WLAN_NL_MSG_BASE` slots, so also on
one that has exactly that many, no access to `nl_srv_msg_handler` falls outside the array:
`nl_srv_rcv_msg` never ends in the out-of-bounds branch, whatever the header; neither does the
loop of `nl_srv_rcv_skb`, with handlers that leave the array its size; and `nl_srv_register`
and `nl_srv_unregister` never do, for every message type, negative ones and those from
`WLAN_NL_MSG_MAX` on included.  Every index used therefore lies in
`[0, WLAN_NL_MSG_MAX - WLAN_NL_MSG_BASE)`. -/
theorem nl_srv_msg_handler_in_bounds (cfg : Config) (call : callback_sem) (fuel : Nat)
    (s : rcv_state) (nlh : nlmsghdr) (msg_type : Int) (msg_handler : nl_srv_msg_callback)
    (hsize : ∀ h skb g,
      (call h skb g).2.nl_srv_msg_handler.length = g.nl_srv_msg_handler.length)
    (ht : cfg.WLAN_NL_MSG_MAX - cfg.WLAN_NL_MSG_BASE ≤ s.g.nl_srv_msg_handler.length) :
    (nl_srv_rcv_msg cfg call s nlh).1 ≠ Outcome.out_of_bounds ∧
    (nl_srv_rcv_skb cfg call fuel s).1 ≠ Outcome.out_of_bounds ∧
    nl_srv_register cfg s.g msg_type msg_handler ≠ none ∧
    nl_srv_unregister cfg s.g msg_type msg_handler ≠ none ∧
    ((nl_srv_rcv_msg cfg call s nlh).2.invoked ≠ s.invoked →
      0 ≤ (nlh.nlmsg_type : Int) - cfg.WLAN_NL_MSG_BASE ∧
      (nlh.nlmsg_type : Int) - cfg.WLAN_NL_MSG_BASE <
        cfg.WLAN_NL_MSG_MAX - cfg.WLAN_NL_MSG_BASE) := by
  refine ⟨?_, nl_srv_rcv_skb_in_bounds cfg call hsize fuel s ht, ?_, ?_, ?_⟩
  · rw [nl_srv_rcv_msg_in_bounds cfg call s nlh ht]
    intro hc; cases hc
  · unfold nl_srv_register
    by_cases hc : msg_type ≥ cfg.WLAN_NL_MSG_BASE ∧ msg_type < cfg.WLAN_NL_MSG_MAX ∧
        msg_handler ≠ NULL
    · rw [if_pos hc, table_write_in_range cfg _ _ _ ht hc.1 hc.2.1]
      exact fun h => Option.noConfusion h
    · rw [if_neg hc]
      exact fun h => Option.noConfusion h
  · unfold nl_srv_unregister
    by_cases hc : msg_type ≥ cfg.WLAN_NL_MSG_BASE ∧ msg_type < cfg.WLAN_NL_MSG_MAX
    · obtain ⟨x, hx⟩ := table_read_in_range cfg _ msg_type ht hc.1 hc.2
      rw [if_pos hc, hx]
      dsimp only
      by_cases he : x = msg_handler
      · rw [if_pos he, table_write_in_range cfg _ _ _ ht hc.1 hc.2]
        exact fun h => Option.noConfusion h
      · rw [if_neg he]
        exact fun h => Option.noConfusion h
    · rw [if_neg hc]
      exact fun h => Option.noConfusion h
  · intro hne
    rcases nl_srv_rcv_msg_invoked cfg call s nlh with h | ⟨x, hx, _⟩
    · exact absurd h hne
    · obtain ⟨_, hlo, hhi, _⟩ := dispatch_target_facts cfg _ _ x hx
      exact ⟨by omega, by omega⟩

/-- C18 on the sample table, which has exactly `WLAN_NL_MSG_MAX - WLAN_NL_MSG_BASE` slots, at a
negative message type. -/
theorem nl_srv_msg_handler_in_bounds_witness :
    (∀ h skb g, (pure_callbacks h skb g).2.nl_srv_msg_handler.length =
      g.nl_srv_msg_handler.length) ∧
    (wlan_cfg.WLAN_NL_MSG_MAX - wlan_cfg.WLAN_NL_MSG_BASE ≤
      ((rcv_start sample_state sample_frame_a).g.nl_srv_msg_handler.length : Int)) ∧
    nl_srv_register wlan_cfg (rcv_start sample_state sample_frame_a).g (-5) 7 ≠ none ∧
    nl_srv_unregister wlan_cfg (rcv_start sample_state sample_frame_a).g (-5) 7 ≠ none :=
  ⟨fun _ _ _ => rfl, by decide,
    (nl_srv_msg_handler_in_bounds wlan_cfg pure_callbacks 3
      (rcv_start sample_state sample_frame_a) (nlmsghdr_of sample_frame_a) (-5) 7
      (fun _ _ _ => rfl) (by decide)).2.2.1,
    (nl_srv_msg_handler_in_bounds wlan_cfg pure_callbacks 3
      (rcv_start sample_state sample_frame_a) (nlmsghdr_of sample_frame_a) (-5) 7
      (fun _ _ _ => rfl) (by decide)).2.2.2.1⟩

/-- C19: where `tAniMsgHdr` takes at least four bytes, at every handler invocation that
`nl_srv_rcv_skb` makes, whatever the handlers do, the frame at the cursor of the buffer passed
to the handler is the one being dispatched: its request flag is set, its type is in range, and
20 <= NLMSG_LENGTH(sizeof(tAniMsgHdr)) <= declared length <= `skb->len` of that buffer.  With
handlers that leave the buffer alone, the buffer passed is the one `nl_srv_rcv_skb` was given,
its cursor not before the starting cursor, and its length is what remains from the cursor to
the end: the advance past the frame has not yet happened. -/
theorem nl_srv_rcv_skb_invocation_state (cfg : Config) (call : callback_sem) (fuel : Nat)
    (skb : sk_buff) (g : nlink_state) (hsz : 4 ≤ cfg.sizeof_tAniMsgHdr) :
    (∀ e ∈ (nl_srv_rcv_skb cfg call fuel { skb := skb, g := g, invoked := [] }).2.invoked,
      (nlmsghdr_of (skb_data e.2)).nlmsg_flags &&& NLM_F_REQUEST ≠ 0 ∧
      cfg.WLAN_NL_MSG_BASE ≤ ((nlmsghdr_of (skb_data e.2)).nlmsg_type : Int) ∧
      ((nlmsghdr_of (skb_data e.2)).nlmsg_type : Int) < cfg.WLAN_NL_MSG_MAX ∧
      20 ≤ NLMSG_LENGTH cfg.sizeof_tAniMsgHdr ∧
      NLMSG_LENGTH cfg.sizeof_tAniMsgHdr ≤ (nlmsghdr_of (skb_data e.2)).nlmsg_len ∧
      (nlmsghdr_of (skb_data e.2)).nlmsg_len ≤ e.2.len ∧
      e.1 ≠ NULL) ∧
    ((∀ h b x, (call h b x).1 = b) →
      ∀ e ∈ (nl_srv_rcv_skb cfg call fuel { skb := skb, g := g, invoked := [] }).2.invoked,
        e.2.head = skb.head ∧ e.2.cb = skb.cb ∧ skb.data ≤ e.2.data ∧
        e.2.data + e.2.len = skb.data + skb.len) := by
  constructor
  · refine nl_srv_rcv_skb_invariant cfg call _ ?_ fuel _ (by simp)
    intro s h _ _ hle ht
    obtain ⟨h1, h2, h3, h4, h5, _⟩ := dispatch_target_facts cfg _ _ h ht
    refine ⟨h1, h2, h3, ?_, h4, hle, h5⟩
    rw [NLMSG_LENGTH_eq]; omega
  · intro hskb
    refine nl_srv_rcv_skb_invariant_skb cfg call
      (fun b => b.head = skb.head ∧ b.cb = skb.cb ∧ skb.data ≤ b.data ∧
        b.data + b.len = skb.data + skb.len) ?_ ?_ fuel _ ⟨rfl, rfl, Nat.le_refl _, rfl⟩
      (by simp)
    · intro h b x hI
      rw [hskb]; exact hI
    · intro b n hI
      unfold skb_pull
      by_cases hn : n > b.len
      · rw [if_pos hn]; exact hI
      · rw [if_neg hn]
        obtain ⟨h1, h2, h3, h4⟩ := hI
        exact ⟨h1, h2, by dsimp only; omega, by dsimp only; omega⟩

/-- C19 with the driver's constants, on the buffer of two valid request frames. -/
theorem nl_srv_rcv_skb_invocation_state_witness :
    4 ≤ wlan_cfg.sizeof_tAniMsgHdr ∧
    ∀ e ∈ (nl_srv_rcv_skb wlan_cfg pure_callbacks 3
        { skb := skb_of_bytes (sample_frame_a ++ sample_frame_b), g := sample_state,
          invoked := [] }).2.invoked,
      (nlmsghdr_of (skb_data e.2)).nlmsg_flags &&& NLM_F_REQUEST ≠ 0 ∧
      wlan_cfg.WLAN_NL_MSG_BASE ≤ ((nlmsghdr_of (skb_data e.2)).nlmsg_type : Int) ∧
      ((nlmsghdr_of (skb_data e.2)).nlmsg_type : Int) < wlan_cfg.WLAN_NL_MSG_MAX ∧
      20 ≤ NLMSG_LENGTH wlan_cfg.sizeof_tAniMsgHdr ∧
      NLMSG_LENGTH wlan_cfg.sizeof_tAniMsgHdr ≤ (nlmsghdr_of (skb_data e.2)).nlmsg_len ∧
      (nlmsghdr_of (skb_data e.2)).nlmsg_len ≤ e.2.len ∧
      e.1 ≠ NULL :=
  ⟨by decide,
    (nl_srv_rcv_skb_invocation_state wlan_cfg pure_callbacks 3
      (skb_of_bytes (sample_frame_a ++ sample_frame_b)) sample_state (by decide)).1⟩

end WlanNlink
